import Mathlib

/-!
Verification development for the zng-network-sim battery-swap simulator.

The Python source is embedded shallowly over exact rationals:
- every `float` becomes `ℚ`; the Python `round(x, n)` (bankers rounding,
  half-to-even) becomes `pyRound n`, `round(x)` becomes `roundHalfEven`;
- `math.floor` becomes `Int.floor`;
- fallible results become `Option`;
- the NumPy RNG is modelled as an abstract deterministic stream threaded
  through the stochastic loop, with the distribution samplers taken as
  parameters (their exact float behaviour is irrelevant to the properties
  proved here, which hold for every sampler).
-/

namespace ZngSim

/-- Floor of a rational, written on the numerator and denominator
(`Rat.floor_def`), so that concrete values evaluate by `norm_num`. -/
def ratFloor (q : ℚ) : ℤ := q.num / (q.den : ℤ)

/-- Rounding of the Python built-in `round` to an integer: half-to-even. -/
def roundHalfEven (q : ℚ) : ℤ :=
  let f := ratFloor q
  let r := q - (f : ℚ)
  if r < 1/2 then f
  else if (1:ℚ)/2 < r then f + 1
  else if f % 2 = 0 then f else f + 1

/-- Rounding of the Python `round(x, n)` to `n` decimal places (half-to-even on the scaled value). -/
def pyRound (n : ℕ) (q : ℚ) : ℚ :=
  (roundHalfEven (q * 10 ^ n) : ℚ) / 10 ^ n

-- ═══════════════════════════════════════════════════════════════════════
-- Configuration records (src/zng_simulator/config/*.py), fields restricted
-- to those the engines under verification read.
-- ═══════════════════════════════════════════════════════════════════════

/-- config/vehicle.py `VehicleConfig`. -/
structure VehicleConfig where
  packs_per_vehicle : ℕ
  pack_capacity_kwh : ℚ
  avg_daily_km : ℚ
  energy_consumption_wh_per_km : ℚ
  range_anxiety_buffer_pct : ℚ
deriving Repr, DecidableEq

/-- config/battery.py `PackSpec`. -/
structure PackSpec where
  nominal_capacity_kwh : ℚ
  unit_cost : ℚ
  cycle_degradation_rate_pct : ℚ
  calendar_aging_rate_pct_per_month : ℚ
  retirement_soh_pct : ℚ
  second_life_salvage_value : ℚ
  mtbf_hours : ℚ
  mttr_hours : ℚ
  repair_cost_per_event : ℚ
  replacement_threshold : ℤ
  full_replacement_cost : ℚ
  spare_packs_cost_per_station : ℚ
deriving Repr, DecidableEq

/-- config/charger.py `ChargerVariant`. -/
structure ChargerVariant where
  purchase_cost_per_slot : ℚ
  rated_power_w : ℚ
  charging_efficiency_pct : ℚ
  mtbf_hours : ℚ
  mttr_hours : ℚ
  repair_cost_per_event : ℚ
  replacement_threshold : ℤ
  full_replacement_cost : ℚ
  spare_inventory_cost : ℚ
deriving Repr, DecidableEq

/-- config/station.py `StationConfig`. -/
structure StationConfig where
  cabinet_cost : ℚ
  site_prep_cost : ℚ
  grid_connection_cost : ℚ
  software_cost : ℚ
  security_deposit : ℚ
  num_stations : ℕ
  docks_per_station : ℕ
  operating_hours_per_day : ℚ
deriving Repr, DecidableEq

/-- config/opex.py `OpExConfig`. -/
structure OpExConfig where
  electricity_tariff_per_kwh : ℚ
  auxiliary_power_per_month : ℚ
  rent_per_month_per_station : ℚ
  preventive_maintenance_per_month_per_station : ℚ
  corrective_maintenance_per_month_per_station : ℚ
  insurance_per_month_per_station : ℚ
  logistics_per_month_per_station : ℚ
  pack_handling_labor_per_swap : ℚ
  overhead_per_month : ℚ
deriving Repr, DecidableEq

/-- config/revenue.py `RevenueConfig`. -/
structure RevenueConfig where
  price_per_swap : ℚ
  initial_fleet_size : ℕ
  monthly_fleet_additions : ℕ
deriving Repr, DecidableEq

/-- config/chaos.py `ChaosConfig`. -/
structure ChaosConfig where
  sabotage_pct_per_month : ℚ
  aggressiveness_index : ℚ
deriving Repr, DecidableEq

/-- config/scenario.py `SimulationConfig` (fields read by the engines). -/
structure SimulationConfig where
  horizon_months : ℕ
deriving Repr, DecidableEq

-- ═══════════════════════════════════════════════════════════════════════
-- Derived parameters (engine/derived.py)
-- ═══════════════════════════════════════════════════════════════════════

/-- models/results.py `DerivedParams`. -/
structure DerivedParams where
  energy_per_swap_cycle_per_pack_kwh : ℚ
  energy_per_swap_cycle_per_vehicle_kwh : ℚ
  total_energy_per_vehicle_kwh : ℚ
  daily_energy_need_wh : ℚ
  swap_visits_per_vehicle_per_day : ℚ
  charge_time_minutes : ℚ
  effective_c_rate : ℚ
  cycles_per_day_per_dock : ℚ
  pack_lifetime_cycles : ℤ
  total_docks : ℕ
  cycles_per_month_per_station : ℚ
  total_network_cycles_per_month : ℚ
  initial_fleet_size : ℕ
  packs_on_vehicles : ℕ
  packs_in_docks : ℕ
  total_packs : ℕ
deriving Repr, DecidableEq

/-- engine/derived.py `compute_derived_params`.

Both engines always pass `chaos` and `revenue`, so they are required here.
Python computes `charge_time_minutes = inf` when rated power or efficiency
is zero and then `cycles_per_day_per_dock = 0` follows; `ℚ` has no
infinity, so the zero result of that branch is produced directly
(validated configs have both strictly positive, making the branch
unreachable). -/
def compute_derived_params (vehicle : VehicleConfig) (pack : PackSpec)
    (charger : ChargerVariant) (station : StationConfig)
    (chaos : ChaosConfig) (revenue : RevenueConfig) : DerivedParams :=
  let energy_per_swap_cycle_per_pack_kwh :=
    vehicle.pack_capacity_kwh * (1 - vehicle.range_anxiety_buffer_pct)
  let energy_per_swap_cycle_per_vehicle_kwh :=
    (vehicle.packs_per_vehicle : ℚ) * energy_per_swap_cycle_per_pack_kwh
  let total_energy_per_vehicle_kwh :=
    (vehicle.packs_per_vehicle : ℚ) * vehicle.pack_capacity_kwh
  let daily_energy_need_wh :=
    vehicle.avg_daily_km * vehicle.energy_consumption_wh_per_km
  let energy_per_visit_wh := energy_per_swap_cycle_per_vehicle_kwh * 1000
  let swap_visits_per_vehicle_per_day :=
    if 0 < energy_per_visit_wh then daily_energy_need_wh / energy_per_visit_wh else 0
  let rated_power_kw := charger.rated_power_w / 1000
  let positive_power := 0 < rated_power_kw ∧ 0 < charger.charging_efficiency_pct
  let charge_time_minutes :=
    if positive_power then
      (vehicle.pack_capacity_kwh / (rated_power_kw * charger.charging_efficiency_pct)) * 60
    else 0
  let effective_c_rate :=
    if 0 < vehicle.pack_capacity_kwh then rated_power_kw / vehicle.pack_capacity_kwh else 0
  let cycles_per_day_per_dock :=
    if positive_power ∧ 0 < charge_time_minutes then
      (station.operating_hours_per_day * 60) / charge_time_minutes
    else 0
  let beta_fraction := pack.cycle_degradation_rate_pct / 100
  let aggressiveness := chaos.aggressiveness_index
  let effective_beta := beta_fraction * aggressiveness
  let soh_budget := 1 - pack.retirement_soh_pct
  let pack_lifetime_cycles : ℤ :=
    if 0 < effective_beta then ratFloor (soh_budget / effective_beta) else 999999
  let total_docks := station.num_stations * station.docks_per_station
  let cycles_per_month_per_station :=
    cycles_per_day_per_dock * (station.docks_per_station : ℚ) * 30
  let total_network_cycles_per_month :=
    cycles_per_month_per_station * (station.num_stations : ℚ)
  let initial_fleet_size := revenue.initial_fleet_size
  let packs_on_vehicles := vehicle.packs_per_vehicle * initial_fleet_size
  let packs_in_docks := total_docks
  let total_packs := packs_on_vehicles + packs_in_docks
  { energy_per_swap_cycle_per_pack_kwh := pyRound 4 energy_per_swap_cycle_per_pack_kwh
    energy_per_swap_cycle_per_vehicle_kwh := pyRound 4 energy_per_swap_cycle_per_vehicle_kwh
    total_energy_per_vehicle_kwh := pyRound 4 total_energy_per_vehicle_kwh
    daily_energy_need_wh := pyRound 2 daily_energy_need_wh
    swap_visits_per_vehicle_per_day := pyRound 4 swap_visits_per_vehicle_per_day
    charge_time_minutes := pyRound 2 charge_time_minutes
    effective_c_rate := pyRound 4 effective_c_rate
    cycles_per_day_per_dock := pyRound 2 cycles_per_day_per_dock
    pack_lifetime_cycles := pack_lifetime_cycles
    total_docks := total_docks
    cycles_per_month_per_station := pyRound 2 cycles_per_month_per_station
    total_network_cycles_per_month := pyRound 2 total_network_cycles_per_month
    initial_fleet_size := initial_fleet_size
    packs_on_vehicles := packs_on_vehicles
    packs_in_docks := packs_in_docks
    total_packs := total_packs }

-- ═══════════════════════════════════════════════════════════════════════
-- Charger TCO (engine/charger_tco.py)
-- ═══════════════════════════════════════════════════════════════════════

/-- models/results.py `ChargerTCOBreakdown`. -/
structure ChargerTCOBreakdown where
  total_docks : ℕ
  purchase_cost : ℚ
  scheduled_hours_per_year_per_dock : ℚ
  fleet_operating_hours : ℚ
  availability : ℚ
  expected_failures_over_horizon : ℚ
  total_repair_cost : ℚ
  num_replacements : ℤ
  total_replacement_cost : ℚ
  total_downtime_hours : ℚ
  lost_revenue_from_downtime : ℚ
  spare_inventory_cost : ℚ
  total_tco : ℚ
  cycles_served_over_horizon : ℚ
  cost_per_cycle : ℚ
deriving Repr, DecidableEq

/-- engine/charger_tco.py `compute_charger_tco`. -/
def compute_charger_tco (charger : ChargerVariant) (derived : DerivedParams)
    (vehicle : VehicleConfig) (revenue : RevenueConfig)
    (simulation : SimulationConfig) (station : StationConfig) : ChargerTCOBreakdown :=
  let horizon_years : ℚ := (simulation.horizon_months : ℚ) / 12
  let total_docks := derived.total_docks
  let scheduled_hours_per_year_per_dock := station.operating_hours_per_day * 365
  let fleet_operating_hours :=
    scheduled_hours_per_year_per_dock * horizon_years * (total_docks : ℚ)
  let expected_failures :=
    if 0 < charger.mtbf_hours then fleet_operating_hours / charger.mtbf_hours else 0
  let availability :=
    if 0 < charger.mtbf_hours + charger.mttr_hours then
      charger.mtbf_hours / (charger.mtbf_hours + charger.mttr_hours)
    else 1
  let total_repair_cost := expected_failures * charger.repair_cost_per_event
  let num_replacements : ℤ :=
    if 0 < charger.replacement_threshold then
      ratFloor (expected_failures / (charger.replacement_threshold : ℚ))
    else 0
  let total_replacement_cost := (num_replacements : ℚ) * charger.full_replacement_cost
  let total_downtime_hours := expected_failures * charger.mttr_hours
  let cycles_per_hour :=
    if 0 < station.operating_hours_per_day then
      derived.cycles_per_day_per_dock / station.operating_hours_per_day
    else 0
  let revenue_per_cycle :=
    if 0 < vehicle.packs_per_vehicle then
      revenue.price_per_swap / (vehicle.packs_per_vehicle : ℚ)
    else 0
  let lost_revenue := total_downtime_hours * cycles_per_hour * revenue_per_cycle
  let fleet_purchase_cost := charger.purchase_cost_per_slot * (total_docks : ℚ)
  let fleet_spare_cost := charger.spare_inventory_cost * (station.num_stations : ℚ)
  let total_tco :=
    fleet_purchase_cost + total_repair_cost + total_replacement_cost
      + lost_revenue + fleet_spare_cost
  let fleet_uptime_hours := fleet_operating_hours - total_downtime_hours
  let fleet_cycles_served :=
    if 0 < fleet_uptime_hours then cycles_per_hour * fleet_uptime_hours else 0
  let cost_per_cycle :=
    if 0 < fleet_cycles_served then total_tco / fleet_cycles_served else 0
  { total_docks := total_docks
    purchase_cost := pyRound 2 fleet_purchase_cost
    scheduled_hours_per_year_per_dock := pyRound 1 scheduled_hours_per_year_per_dock
    fleet_operating_hours := pyRound 1 fleet_operating_hours
    availability := pyRound 6 availability
    expected_failures_over_horizon := pyRound 2 expected_failures
    total_repair_cost := pyRound 2 total_repair_cost
    num_replacements := num_replacements
    total_replacement_cost := pyRound 2 total_replacement_cost
    total_downtime_hours := pyRound 2 total_downtime_hours
    lost_revenue_from_downtime := pyRound 2 lost_revenue
    spare_inventory_cost := pyRound 2 fleet_spare_cost
    total_tco := pyRound 2 total_tco
    cycles_served_over_horizon := pyRound 2 fleet_cycles_served
    cost_per_cycle := pyRound 4 cost_per_cycle }

-- ═══════════════════════════════════════════════════════════════════════
-- Pack failure TCO (engine/pack_tco.py)
-- ═══════════════════════════════════════════════════════════════════════

/-- models/results.py `PackTCOBreakdown`. -/
structure PackTCOBreakdown where
  total_packs : ℕ
  fleet_operating_hours : ℚ
  availability : ℚ
  expected_failures : ℚ
  total_repair_cost : ℚ
  num_replacements : ℤ
  total_replacement_cost : ℚ
  total_downtime_hours : ℚ
  lost_revenue_from_downtime : ℚ
  spare_inventory_cost : ℚ
  total_failure_tco : ℚ
  failure_cost_per_cycle : ℚ
deriving Repr, DecidableEq

/-- engine/pack_tco.py `compute_pack_tco`. -/
def compute_pack_tco (pack : PackSpec) (derived : DerivedParams)
    (vehicle : VehicleConfig) (revenue : RevenueConfig)
    (simulation : SimulationConfig) (station : StationConfig)
    (initial_packs : ℕ) : PackTCOBreakdown :=
  let horizon_years : ℚ := (simulation.horizon_months : ℚ) / 12
  let hours_per_year_per_pack := station.operating_hours_per_day * 365
  let fleet_operating_hours := hours_per_year_per_pack * horizon_years * (initial_packs : ℚ)
  let expected_failures :=
    if 0 < pack.mtbf_hours then fleet_operating_hours / pack.mtbf_hours else 0
  let availability :=
    if 0 < pack.mtbf_hours + pack.mttr_hours then
      pack.mtbf_hours / (pack.mtbf_hours + pack.mttr_hours)
    else 1
  let total_repair_cost := expected_failures * pack.repair_cost_per_event
  let num_replacements : ℤ :=
    if 0 < pack.replacement_threshold then
      ratFloor (expected_failures / (pack.replacement_threshold : ℚ))
    else 0
  let total_replacement_cost := (num_replacements : ℚ) * pack.full_replacement_cost
  let total_downtime_hours := expected_failures * pack.mttr_hours
  let cycles_per_hour :=
    if 0 < station.operating_hours_per_day then
      derived.cycles_per_day_per_dock / station.operating_hours_per_day
    else 0
  let revenue_per_cycle :=
    if 0 < vehicle.packs_per_vehicle then
      revenue.price_per_swap / (vehicle.packs_per_vehicle : ℚ)
    else 0
  let lost_revenue := total_downtime_hours * cycles_per_hour * revenue_per_cycle
  let fleet_spare_cost := pack.spare_packs_cost_per_station * (station.num_stations : ℚ)
  let total_failure_tco :=
    total_repair_cost + total_replacement_cost + lost_revenue + fleet_spare_cost
  let fleet_uptime_hours := fleet_operating_hours - total_downtime_hours
  let fleet_cycles :=
    if 0 < fleet_uptime_hours then cycles_per_hour * fleet_uptime_hours else 0
  let failure_cost_per_cycle :=
    if 0 < fleet_cycles then total_failure_tco / fleet_cycles else 0
  { total_packs := initial_packs
    fleet_operating_hours := pyRound 1 fleet_operating_hours
    availability := pyRound 6 availability
    expected_failures := pyRound 2 expected_failures
    total_repair_cost := pyRound 2 total_repair_cost
    num_replacements := num_replacements
    total_replacement_cost := pyRound 2 total_replacement_cost
    total_downtime_hours := pyRound 2 total_downtime_hours
    lost_revenue_from_downtime := pyRound 2 lost_revenue
    spare_inventory_cost := pyRound 2 fleet_spare_cost
    total_failure_tco := pyRound 2 total_failure_tco
    failure_cost_per_cycle := pyRound 4 failure_cost_per_cycle }

-- ═══════════════════════════════════════════════════════════════════════
-- Cost-per-cycle waterfall (engine/cost_per_cycle.py)
-- ═══════════════════════════════════════════════════════════════════════

/-- models/results.py `CostPerCycleWaterfall`. -/
structure CostPerCycleWaterfall where
  battery : ℚ
  charger : ℚ
  electricity : ℚ
  real_estate : ℚ
  maintenance : ℚ
  insurance : ℚ
  sabotage : ℚ
  logistics : ℚ
  overhead : ℚ
  total : ℚ
deriving Repr, DecidableEq

/-- engine/cost_per_cycle.py `compute_cpc_waterfall`. -/
def compute_cpc_waterfall (derived : DerivedParams) (pack : PackSpec)
    (charger : ChargerVariant) (opex : OpExConfig) (chaos : ChaosConfig)
    (station : StationConfig) (charger_tco : ChargerTCOBreakdown)
    (pack_tco : PackTCOBreakdown) : CostPerCycleWaterfall :=
  let cycles_per_month := derived.cycles_per_month_per_station
  let total_cycles_per_month := derived.total_network_cycles_per_month
  if total_cycles_per_month ≤ 0 then
    { battery := 0, charger := 0, electricity := 0, real_estate := 0,
      maintenance := 0, insurance := 0, sabotage := 0, logistics := 0,
      overhead := 0, total := 0 }
  else
    let cpc_battery_degradation :=
      if 0 < derived.pack_lifetime_cycles then
        (pack.unit_cost - pack.second_life_salvage_value) / (derived.pack_lifetime_cycles : ℚ)
      else 0
    let cpc_battery := cpc_battery_degradation + pack_tco.failure_cost_per_cycle
    let cpc_charger := charger_tco.cost_per_cycle
    let energy_drawn_kwh :=
      if 0 < charger.charging_efficiency_pct then
        pack.nominal_capacity_kwh / charger.charging_efficiency_pct
      else 0
    let cpc_electricity := energy_drawn_kwh * opex.electricity_tariff_per_kwh
    let cpc_real_estate :=
      if 0 < cycles_per_month then opex.rent_per_month_per_station / cycles_per_month else 0
    let monthly_maintenance :=
      opex.preventive_maintenance_per_month_per_station
        + opex.corrective_maintenance_per_month_per_station
    let cpc_maintenance :=
      if 0 < cycles_per_month then monthly_maintenance / cycles_per_month else 0
    let cpc_insurance :=
      if 0 < cycles_per_month then opex.insurance_per_month_per_station / cycles_per_month else 0
    let sabotage_monthly_loss_per_station :=
      chaos.sabotage_pct_per_month * (station.docks_per_station : ℚ) * pack.unit_cost
    let cpc_sabotage :=
      if 0 < cycles_per_month then sabotage_monthly_loss_per_station / cycles_per_month else 0
    let cpc_logistics :=
      if 0 < cycles_per_month then opex.logistics_per_month_per_station / cycles_per_month else 0
    let cpc_overhead :=
      if 0 < total_cycles_per_month then opex.overhead_per_month / total_cycles_per_month else 0
    let total :=
      cpc_battery + cpc_charger + cpc_electricity + cpc_real_estate
        + cpc_maintenance + cpc_insurance + cpc_sabotage + cpc_logistics + cpc_overhead
    { battery := pyRound 4 cpc_battery
      charger := pyRound 4 cpc_charger
      electricity := pyRound 4 cpc_electricity
      real_estate := pyRound 4 cpc_real_estate
      maintenance := pyRound 4 cpc_maintenance
      insurance := pyRound 4 cpc_insurance
      sabotage := pyRound 4 cpc_sabotage
      logistics := pyRound 4 cpc_logistics
      overhead := pyRound 4 cpc_overhead
      total := pyRound 4 total }

-- ═══════════════════════════════════════════════════════════════════════
-- Battery degradation cohort tracker (engine/degradation.py)
-- ═══════════════════════════════════════════════════════════════════════

/-- engine/degradation.py `_Cohort` / models `CohortStatus` (same fields;
a snapshot is a cohort with `current_soh` rounded to 6 decimals). -/
structure Cohort where
  cohort_id : ℕ
  born_month : ℕ
  pack_count : ℕ
  current_soh : ℚ
  cumulative_cycles : ℤ
  is_retired : Bool
  retired_month : Option ℕ
deriving Repr, DecidableEq

/-- Snapshot conversion `_Cohort.to_snapshot`: identical record with `current_soh` rounded to 6 dp. -/
def cohortSnapshot (c : Cohort) : Cohort :=
  { c with current_soh := pyRound 6 c.current_soh }

/-- Constructor-derived constants of `DegradationTracker.__init__`. -/
structure TrackerParams where
  beta_per_cycle : ℚ      -- (cycle_degradation_rate_pct / 100) × aggressiveness
  calendar_per_month : ℚ  -- calendar_aging_rate_pct_per_month / 100
  retirement_soh : ℚ
  auto_replace : Bool
deriving Repr, DecidableEq

/-- Tracker constants of `DegradationTracker.__init__` from the pack and chaos configs. -/
def trackerParamsOf (pack : PackSpec) (chaos : ChaosConfig) (auto_replace : Bool) :
    TrackerParams :=
  { beta_per_cycle := (pack.cycle_degradation_rate_pct / 100) * chaos.aggressiveness_index
    calendar_per_month := pack.calendar_aging_rate_pct_per_month / 100
    retirement_soh := pack.retirement_soh_pct
    auto_replace := auto_replace }

/-- Mutable tracker state: cohort list plus the monotonic id counter. -/
structure TrackerState where
  cohorts : List Cohort
  next_id : ℕ
deriving Repr, DecidableEq

/-- Method `DegradationTracker.add_cohort`. -/
def addCohort (s : TrackerState) (pack_count : ℕ) (born_month : ℕ) : TrackerState :=
  { cohorts := s.cohorts ++
      [{ cohort_id := s.next_id, born_month := born_month, pack_count := pack_count,
         current_soh := 1, cumulative_cycles := 0, is_retired := false,
         retired_month := none }]
    next_id := s.next_id + 1 }

/-- Property `DegradationTracker.active_pack_count`. -/
def activePackCount (s : TrackerState) : ℕ :=
  (s.cohorts.filter (fun c => !c.is_retired)).foldl (fun acc c => acc + c.pack_count) 0

/-- Property `DegradationTracker.avg_soh` (pack-count-weighted over active cohorts). -/
def avgSoh (s : TrackerState) : ℚ :=
  let active := s.cohorts.filter (fun c => !c.is_retired)
  let total_packs := active.foldl (fun acc c => acc + c.pack_count) (0 : ℕ)
  let weighted := active.foldl (fun acc c => acc + c.current_soh * (c.pack_count : ℚ)) (0 : ℚ)
  if 0 < total_packs then weighted / (total_packs : ℚ) else 0

/-- The per-cohort body of the degradation loop in `DegradationTracker.step`:
degrade an active cohort, credit its cycles, and retire it when its new SOH
falls to within `1e-9` of the retirement threshold. Retired cohorts are
skipped unchanged. -/
def degradeCohort (p : TrackerParams) (total_soh_loss cycles_per_pack : ℚ)
    (month : ℕ) (c : Cohort) : Cohort :=
  if c.is_retired then c
  else
    let soh := c.current_soh - total_soh_loss
    let cyc := c.cumulative_cycles + roundHalfEven cycles_per_pack
    if soh ≤ p.retirement_soh + 1 / 1000000000 then
      { c with current_soh := soh, cumulative_cycles := cyc,
               is_retired := true, retired_month := some month }
    else
      { c with current_soh := soh, cumulative_cycles := cyc }

/-- Record `DegradationStepResult` (engine/degradation.py). -/
structure DegradationStepResult where
  packs_retired : ℕ
  packs_replaced : ℕ
  active_pack_count : ℕ
  avg_soh : ℚ
  cohort_snapshots : List Cohort
deriving Repr, DecidableEq

/-- Method `DegradationTracker.step`: one month of SOH degradation, retirement
checks and (optionally) auto-replacement. Returns the step result and the
new tracker state. `total_fleet_cycles` is a count (the orchestrator passes
`swap_visits × packs_per_vehicle`). -/
def stepTracker (p : TrackerParams) (s : TrackerState) (month : ℕ)
    (total_fleet_cycles : ℕ) : DegradationStepResult × TrackerState :=
  let active_packs := activePackCount s
  if active_packs = 0 then
    ({ packs_retired := 0, packs_replaced := 0, active_pack_count := 0,
       avg_soh := 0, cohort_snapshots := s.cohorts.map cohortSnapshot }, s)
  else
    let cycles_per_pack : ℚ := (total_fleet_cycles : ℚ) / (active_packs : ℚ)
    let total_soh_loss := p.beta_per_cycle * cycles_per_pack + p.calendar_per_month
    let newCohorts := s.cohorts.map (degradeCohort p total_soh_loss cycles_per_pack month)
    let newly_retired := (s.cohorts.filter (fun c => !c.is_retired)).filter
      (fun c => (degradeCohort p total_soh_loss cycles_per_pack month c).is_retired)
    let packs_retired := newly_retired.foldl (fun acc c => acc + c.pack_count) (0 : ℕ)
    let s1 : TrackerState := { cohorts := newCohorts, next_id := s.next_id }
    let s2 :=
      if p.auto_replace ∧ 0 < packs_retired then
        newly_retired.foldl (fun st c => addCohort st c.pack_count month) s1
      else s1
    let packs_replaced :=
      if p.auto_replace ∧ 0 < packs_retired then packs_retired else 0
    ({ packs_retired := packs_retired
       packs_replaced := packs_replaced
       active_pack_count := activePackCount s2
       avg_soh := pyRound 6 (avgSoh s2)
       cohort_snapshots := s2.cohorts.map cohortSnapshot }, s2)

-- ═══════════════════════════════════════════════════════════════════════
-- Result models (models/results.py)
-- ═══════════════════════════════════════════════════════════════════════

/-- models/results.py `MonthlySnapshot` (stochastic-only fields are `Option`,
serialized as null by the static engine). -/
structure MonthlySnapshot where
  month : ℕ
  fleet_size : ℕ
  swap_visits : ℤ
  total_cycles : ℤ
  revenue : ℚ
  opex_total : ℚ
  capex_this_month : ℚ
  net_cash_flow : ℚ
  cumulative_cash_flow : ℚ
  cost_per_cycle : CostPerCycleWaterfall
  avg_soh : Option ℚ := none
  packs_retired_this_month : Option ℕ := none
  packs_replaced_this_month : Option ℕ := none
  replacement_capex_this_month : Option ℚ := none
  salvage_credit_this_month : Option ℚ := none
  charger_failures_this_month : Option ℕ := none
deriving Repr, DecidableEq

/-- models/results.py `RunSummary`. -/
structure RunSummary where
  total_revenue : ℚ
  total_opex : ℚ
  total_capex : ℚ
  total_net_cash_flow : ℚ
  avg_cost_per_cycle : ℚ
  break_even_month : Option ℕ
  total_packs_retired : Option ℕ := none
  total_charger_failures : Option ℕ := none
  total_failure_to_serve : Option ℕ := none
  mean_soh_at_end : Option ℚ := none
  total_replacement_capex : Option ℚ := none
  total_salvage_credit : Option ℚ := none
deriving Repr, DecidableEq

/-- models/results.py `MonteCarloSummary`. -/
structure MonteCarloSummary where
  num_runs : ℕ
  ncf_p10 : ℚ
  ncf_p50 : ℚ
  ncf_p90 : ℚ
  break_even_p10 : Option ℤ
  break_even_p50 : Option ℤ
  break_even_p90 : Option ℤ
  cpc_p10 : ℚ
  cpc_p50 : ℚ
  cpc_p90 : ℚ
  avg_packs_retired : ℚ
  max_packs_retired : ℕ
  avg_charger_failures : ℚ
  avg_failure_to_serve : ℚ
  max_failure_to_serve : ℕ
deriving Repr, DecidableEq

inductive EngineType | static | stochastic
deriving Repr, DecidableEq

/-- models/results.py `SimulationResult`. The extra `capex_trace` field
retains the per-month CapEx accumulator values of the loop before the 2-decimal
snapshot rounding (an intermediate of the source loop, exposed for the
accounting theorems). -/
structure SimulationResult where
  engine_type : EngineType
  months : List MonthlySnapshot
  summary : RunSummary
  derived : DerivedParams
  cpc_waterfall : CostPerCycleWaterfall
  charger_tco : ChargerTCOBreakdown
  pack_tco : PackTCOBreakdown
  cohort_history : List (List Cohort) := []
  monte_carlo : Option MonteCarloSummary := none
  capex_trace : List ℚ := []
deriving Repr, DecidableEq

-- ═══════════════════════════════════════════════════════════════════════
-- Static monthly engine (engine/cashflow.py)
-- ═══════════════════════════════════════════════════════════════════════

/-- The bundle a `Scenario` passes to the engines (config/scenario.py),
plus the charger variant selected for the run. -/
structure ScnArgs where
  vehicle : VehicleConfig
  pack : PackSpec
  charger : ChargerVariant
  station : StationConfig
  opex : OpExConfig
  revenue : RevenueConfig
  chaos : ChaosConfig
  simulation : SimulationConfig
deriving Repr, DecidableEq

/-- Derived parameters of a run (cashflow.py line computing `derived`). -/
def derivedOf (A : ScnArgs) : DerivedParams :=
  compute_derived_params A.vehicle A.pack A.charger A.station A.chaos A.revenue

/-- Initial CapEx at month 1 (identical lines in cashflow.py and
orchestrator.py): station fixed costs, software, chargers for every dock,
and the full initial pack inventory. -/
def totalInitialCapex (A : ScnArgs) : ℚ :=
  let derived := derivedOf A
  let per_station_capex :=
    A.station.cabinet_cost + A.station.site_prep_cost
      + A.station.grid_connection_cost + A.station.security_deposit
  let station_capex := per_station_capex * (A.station.num_stations : ℚ) + A.station.software_cost
  let charger_capex := A.charger.purchase_cost_per_slot * (derived.total_docks : ℚ)
  let pack_capex := (derived.total_packs : ℚ) * A.pack.unit_cost
  station_capex + charger_capex + pack_capex

/-- Fleet size `fleet_size = initial + additions × (m − 1)` (both engines). -/
def fleetSize (A : ScnArgs) (m : ℕ) : ℕ :=
  A.revenue.initial_fleet_size + A.revenue.monthly_fleet_additions * (m - 1)

/-- Static engine: `swap_visits = int(round(visits_per_day × 30))`. -/
def staticSwapVisits (A : ScnArgs) (m : ℕ) : ℤ :=
  roundHalfEven ((derivedOf A).swap_visits_per_vehicle_per_day * (fleetSize A m : ℚ) * 30)

/-- Static engine: `total_cycles = swap_visits × packs_per_vehicle`. -/
def staticTotalCycles (A : ScnArgs) (m : ℕ) : ℤ :=
  staticSwapVisits A m * (A.vehicle.packs_per_vehicle : ℤ)

/-- Static engine monthly revenue: per visit, not per pack. -/
def staticRevenue (A : ScnArgs) (m : ℕ) : ℚ :=
  (staticSwapVisits A m : ℚ) * A.revenue.price_per_swap

/-- Station-level fixed OpEx per month (identical lines in both engines). -/
def stationOpex (A : ScnArgs) : ℚ :=
  (A.opex.rent_per_month_per_station
    + A.opex.auxiliary_power_per_month
    + A.opex.preventive_maintenance_per_month_per_station
    + A.opex.corrective_maintenance_per_month_per_station
    + A.opex.insurance_per_month_per_station
    + A.opex.logistics_per_month_per_station) * (A.station.num_stations : ℚ)

/-- Energy drawn from the wall per cycle (both engines). -/
def energyPerCycleKwh (A : ScnArgs) : ℚ :=
  if 0 < A.charger.charging_efficiency_pct then
    A.pack.nominal_capacity_kwh / A.charger.charging_efficiency_pct
  else 0

/-- Static engine monthly OpEx. -/
def staticOpex (A : ScnArgs) (m : ℕ) : ℚ :=
  let cycles := staticTotalCycles A m
  let electricity_cost := (cycles : ℚ) * energyPerCycleKwh A * A.opex.electricity_tariff_per_kwh
  let labor_cost := (cycles : ℚ) * A.opex.pack_handling_labor_per_swap
  let sabotage_cost :=
    A.chaos.sabotage_pct_per_month * ((derivedOf A).total_packs : ℚ) * A.pack.unit_cost
  stationOpex A + electricity_cost + labor_cost + A.opex.overhead_per_month + sabotage_cost

/-- Static engine CapEx for month `m`: the month-1 initial outlay, packs for
fleet additions, and the charger and pack failure repair/replacement totals
spread uniformly over the horizon. -/
def staticMonthCapex (A : ScnArgs) (m : ℕ) : ℚ :=
  let derived := derivedOf A
  let tco := compute_charger_tco A.charger derived A.vehicle A.revenue A.simulation A.station
  let ptco := compute_pack_tco A.pack derived A.vehicle A.revenue A.simulation A.station
    derived.total_packs
  let initial := if m = 1 then totalInitialCapex A else 0
  let growth :=
    if 1 < m ∧ 0 < A.revenue.monthly_fleet_additions then
      ((A.vehicle.packs_per_vehicle * A.revenue.monthly_fleet_additions : ℕ) : ℚ) * A.pack.unit_cost
    else 0
  let charger_spread :=
    if 0 < tco.expected_failures_over_horizon ∧ 0 < A.simulation.horizon_months then
      tco.total_repair_cost / (A.simulation.horizon_months : ℚ)
        + tco.total_replacement_cost / (A.simulation.horizon_months : ℚ)
    else 0
  let pack_spread :=
    if 0 < ptco.expected_failures ∧ 0 < A.simulation.horizon_months then
      ptco.total_repair_cost / (A.simulation.horizon_months : ℚ)
        + ptco.total_replacement_cost / (A.simulation.horizon_months : ℚ)
    else 0
  initial + growth + charger_spread + pack_spread

/-- Static engine net cash flow for month `m`. -/
def staticNetCf (A : ScnArgs) (m : ℕ) : ℚ :=
  staticRevenue A m - staticOpex A m - staticMonthCapex A m

/-- Static engine cumulative cash flow after month `m` (the loop
accumulator equals this partial sum). -/
def staticCumCf (A : ScnArgs) (m : ℕ) : ℚ :=
  ((List.range m).map (fun i => staticNetCf A (i + 1))).sum

/-- engine/cashflow.py `run_simulation` (Phase 1 static engine). -/
def run_simulation (A : ScnArgs) : SimulationResult :=
  let derived := derivedOf A
  let tco := compute_charger_tco A.charger derived A.vehicle A.revenue A.simulation A.station
  let ptco := compute_pack_tco A.pack derived A.vehicle A.revenue A.simulation A.station
    derived.total_packs
  let cpc := compute_cpc_waterfall derived A.pack A.charger A.opex A.chaos A.station tco ptco
  let H := A.simulation.horizon_months
  let months := (List.range H).map (fun i =>
    let m := i + 1
    { month := m
      fleet_size := fleetSize A m
      swap_visits := staticSwapVisits A m
      total_cycles := staticTotalCycles A m
      revenue := pyRound 2 (staticRevenue A m)
      opex_total := pyRound 2 (staticOpex A m)
      capex_this_month := pyRound 2 (staticMonthCapex A m)
      net_cash_flow := pyRound 2 (staticNetCf A m)
      cumulative_cash_flow := pyRound 2 (staticCumCf A m)
      cost_per_cycle := cpc : MonthlySnapshot })
  let break_even_month :=
    ((List.range H).map (fun i => i + 1)).find? (fun m => 1 < m ∧ 0 ≤ staticCumCf A m)
  let total_revenue := ((List.range H).map (fun i => staticRevenue A (i + 1))).sum
  let total_opex_sum := ((List.range H).map (fun i => staticOpex A (i + 1))).sum
  let total_capex_sum := totalInitialCapex A
    + ((List.range H).map (fun i =>
        if 1 < i + 1 then staticMonthCapex A (i + 1) else 0)).sum
  let total_cycles_all := ((List.range H).map (fun i => staticTotalCycles A (i + 1))).sum
  let total_cpc_weighted :=
    ((List.range H).map (fun i => cpc.total * (staticTotalCycles A (i + 1) : ℚ))).sum
  let avg_cpc := if 0 < total_cycles_all then total_cpc_weighted / (total_cycles_all : ℚ) else 0
  { engine_type := EngineType.static
    months := months
    summary :=
      { total_revenue := pyRound 2 total_revenue
        total_opex := pyRound 2 total_opex_sum
        total_capex := pyRound 2 total_capex_sum
        total_net_cash_flow := pyRound 2 (total_revenue - total_opex_sum - total_capex_sum)
        avg_cost_per_cycle := pyRound 4 avg_cpc
        break_even_month := break_even_month }
    derived := derived
    cpc_waterfall := cpc
    charger_tco := tco
    pack_tco := ptco
    capex_trace := (List.range H).map (fun i => staticMonthCapex A (i + 1)) }

-- ═══════════════════════════════════════════════════════════════════════
-- Stochastic engine (engine/orchestrator.py)
--
-- The NumPy generator `np.random.default_rng(seed)` is a deterministic
-- stream; it is embedded as an abstract state type `R` with a seeding
-- function, and the two stochastic samplers (monthly demand and the
-- charger reliability step with its internal per-dock state `C`) as
-- functions threading that state, exactly as the source threads the shared
-- `rng` object. Every theorem below holds for every choice of samplers.
-- ═══════════════════════════════════════════════════════════════════════

/-- The charger reliability step outputs the orchestrator consumes
(engine/charger_reliability.py `step`). -/
structure ChargerStepResult where
  failures : ℕ
  repair_cost : ℚ
  replacement_cost : ℚ
deriving Repr, DecidableEq

/-- The stochastic sub-engines of one run: RNG seeding, the monthly demand
sampler (`generate_monthly_demand`), and the charger reliability tracker
(`ChargerReliabilityTracker`) with state type `C`. -/
structure StochOracle (R C : Type) where
  rngInit : ℕ → R
  demandSample : R → ℕ → ℕ → ℕ × R
  chargerInit : C
  chargerStep : C → R → ChargerStepResult × C × R

/-- Accumulator state of the stochastic monthly loop. -/
structure StochState (R C : Type) where
  rng : R
  deg : TrackerState
  chs : C
  cumulative_cf : ℚ
  break_even_month : Option ℕ
  total_revenue : ℚ
  total_opex_sum : ℚ
  total_capex_sum : ℚ
  total_cycles_all : ℤ
  total_cpc_weighted : ℚ
  total_packs_retired : ℕ
  total_charger_failures : ℕ
  total_replacement_capex : ℚ
  total_salvage_credit : ℚ
  months : List MonthlySnapshot
  cohort_history : List (List Cohort)
  capex_trace : List ℚ

/-- One iteration of the stochastic monthly loop
(orchestrator.py `_run_single_stochastic`, loop body). -/
def stochMonth {R C : Type} (A : ScnArgs) (cpc : CostPerCycleWaterfall)
    (orc : StochOracle R C) (st : StochState R C) (m : ℕ) : StochState R C :=
  let fleet_size := fleetSize A m
  -- 1. stochastic demand
  let ds := orc.demandSample st.rng fleet_size m
  let swap_visits := ds.1
  let rng1 := ds.2
  let total_cycles := swap_visits * A.vehicle.packs_per_vehicle
  -- 2. battery degradation (cohort tracker)
  let p := trackerParamsOf A.pack A.chaos true
  let dr := stepTracker p st.deg m total_cycles
  let deg_result := dr.1
  let deg1 := dr.2
  let replacement_capex := (deg_result.packs_retired : ℚ) * A.pack.unit_cost
  let salvage_credit := (deg_result.packs_retired : ℚ) * A.pack.second_life_salvage_value
  let net_replacement_cost := replacement_capex - salvage_credit
  -- 3. charger reliability
  let cs := orc.chargerStep st.chs rng1
  let char_result := cs.1
  let chs1 := cs.2.1
  let rng2 := cs.2.2
  -- 4. revenue (per visit)
  let monthly_revenue := (swap_visits : ℚ) * A.revenue.price_per_swap
  -- 5. OpEx
  let electricity_cost := (total_cycles : ℚ) * energyPerCycleKwh A
    * A.opex.electricity_tariff_per_kwh
  let labor_cost := (total_cycles : ℚ) * A.opex.pack_handling_labor_per_swap
  let sabotage_cost := A.chaos.sabotage_pct_per_month * (activePackCount deg1 : ℚ)
    * A.pack.unit_cost
  let monthly_opex := stationOpex A + electricity_cost + labor_cost
    + A.opex.overhead_per_month + sabotage_cost + char_result.repair_cost
  -- 6. CapEx
  let capex0 : ℚ := if m = 1 then totalInitialCapex A else 0
  let grow := 1 < m ∧ 0 < A.revenue.monthly_fleet_additions
  let new_packs := A.vehicle.packs_per_vehicle * A.revenue.monthly_fleet_additions
  let capex1 := if grow then capex0 + (new_packs : ℚ) * A.pack.unit_cost else capex0
  let deg2 := if grow then addCohort deg1 new_packs m else deg1
  let capex_this_month := capex1 + net_replacement_cost + char_result.replacement_cost
  -- 7. net cash flow
  let net_cf := monthly_revenue - monthly_opex - capex_this_month
  let cumulative_cf := st.cumulative_cf + net_cf
  let break_even_month :=
    if st.break_even_month = none ∧ 0 ≤ cumulative_cf ∧ 1 < m then some m
    else st.break_even_month
  -- 8. snapshot
  let snap : MonthlySnapshot :=
    { month := m
      fleet_size := fleet_size
      swap_visits := (swap_visits : ℤ)
      total_cycles := (total_cycles : ℤ)
      revenue := pyRound 2 monthly_revenue
      opex_total := pyRound 2 monthly_opex
      capex_this_month := pyRound 2 capex_this_month
      net_cash_flow := pyRound 2 net_cf
      cumulative_cash_flow := pyRound 2 cumulative_cf
      cost_per_cycle := cpc
      avg_soh := some deg_result.avg_soh
      packs_retired_this_month := some deg_result.packs_retired
      packs_replaced_this_month := some deg_result.packs_replaced
      replacement_capex_this_month := some (pyRound 2 net_replacement_cost)
      salvage_credit_this_month := some (pyRound 2 salvage_credit)
      charger_failures_this_month := some char_result.failures }
  { rng := rng2
    deg := deg2
    chs := chs1
    cumulative_cf := cumulative_cf
    break_even_month := break_even_month
    total_revenue := st.total_revenue + monthly_revenue
    total_opex_sum := st.total_opex_sum + monthly_opex
    total_capex_sum := if 1 < m then st.total_capex_sum + capex_this_month
      else st.total_capex_sum
    total_cycles_all := st.total_cycles_all + (total_cycles : ℤ)
    total_cpc_weighted := st.total_cpc_weighted + cpc.total * (total_cycles : ℚ)
    total_packs_retired := st.total_packs_retired + deg_result.packs_retired
    total_charger_failures := st.total_charger_failures + char_result.failures
    total_replacement_capex := st.total_replacement_capex + replacement_capex
    total_salvage_credit := st.total_salvage_credit + salvage_credit
    months := st.months ++ [snap]
    cohort_history := st.cohort_history ++ [deg_result.cohort_snapshots]
    capex_trace := st.capex_trace ++ [capex_this_month] }

/-- The loop-entry state of `_run_single_stochastic`: seeded RNG, the
single initial cohort (all packs, born month 1), fresh charger state, and
accumulators primed with the initial CapEx. -/
def stochInit {R C : Type} (A : ScnArgs) (orc : StochOracle R C)
    (seed : ℕ) : StochState R C :=
  { rng := orc.rngInit seed
    deg := addCohort { cohorts := [], next_id := 0 } (derivedOf A).total_packs 1
    chs := orc.chargerInit
    cumulative_cf := 0
    break_even_month := none
    total_revenue := 0
    total_opex_sum := 0
    total_capex_sum := totalInitialCapex A
    total_cycles_all := 0
    total_cpc_weighted := 0
    total_packs_retired := 0
    total_charger_failures := 0
    total_replacement_capex := 0
    total_salvage_credit := 0
    months := []
    cohort_history := []
    capex_trace := [] }

/-- The loop state of `_run_single_stochastic` after months `1..m`. -/
def stochStateAt {R C : Type} (A : ScnArgs) (cpc : CostPerCycleWaterfall)
    (orc : StochOracle R C) (seed : ℕ) (m : ℕ) : StochState R C :=
  (List.range m).foldl (fun st i => stochMonth A cpc orc st (i + 1))
    (stochInit A orc seed)

/-- orchestrator.py `_run_single_stochastic`. -/
def runSingleStochastic {R C : Type} (A : ScnArgs) (orc : StochOracle R C)
    (seed : ℕ) : SimulationResult :=
  let derived := derivedOf A
  let tco := compute_charger_tco A.charger derived A.vehicle A.revenue A.simulation A.station
  let ptco := compute_pack_tco A.pack derived A.vehicle A.revenue A.simulation A.station
    derived.total_packs
  let cpc := compute_cpc_waterfall derived A.pack A.charger A.opex A.chaos A.station tco ptco
  let fin := stochStateAt A cpc orc seed A.simulation.horizon_months
  let avg_cpc :=
    if 0 < fin.total_cycles_all then fin.total_cpc_weighted / (fin.total_cycles_all : ℚ)
    else 0
  let last_soh := (fin.months.getLast?).bind (fun snap => snap.avg_soh)
  { engine_type := EngineType.stochastic
    months := fin.months
    summary :=
      { total_revenue := pyRound 2 fin.total_revenue
        total_opex := pyRound 2 fin.total_opex_sum
        total_capex := pyRound 2 fin.total_capex_sum
        total_net_cash_flow :=
          pyRound 2 (fin.total_revenue - fin.total_opex_sum - fin.total_capex_sum)
        avg_cost_per_cycle := pyRound 4 avg_cpc
        break_even_month := fin.break_even_month
        total_packs_retired := some fin.total_packs_retired
        total_charger_failures := some fin.total_charger_failures
        mean_soh_at_end := last_soh
        total_replacement_capex := some (pyRound 2 fin.total_replacement_capex)
        total_salvage_credit := some (pyRound 2 fin.total_salvage_credit) }
    derived := derived
    cpc_waterfall := cpc
    charger_tco := tco
    pack_tco := ptco
    cohort_history := fin.cohort_history
    capex_trace := fin.capex_trace }

-- ═══════════════════════════════════════════════════════════════════════
-- Monte-Carlo aggregation (orchestrator.py `_run_monte_carlo`)
-- ═══════════════════════════════════════════════════════════════════════

/-- np.percentile (linear interpolation between closest ranks, type 7). -/
def percentileT7 (xs : List ℚ) (q : ℚ) : ℚ :=
  let sorted := xs.mergeSort (fun a b => a ≤ b)
  let n := sorted.length
  if n = 0 then 0
  else
    let h : ℚ := ((n - 1 : ℕ) : ℚ) * q / 100
    let k := (ratFloor h).toNat
    let lo := sorted.getD k 0
    let hi := sorted.getD (k + 1) lo
    lo + (h - (k : ℚ)) * (hi - lo)

/-- Python `int(...)` on a float: truncation toward zero. -/
def truncToInt (q : ℚ) : ℤ := if 0 ≤ q then ratFloor q else -(ratFloor (-q))

/-- np.argmin on a list (first index attaining the minimum). -/
def argminAux : ℕ → ℚ → ℕ → List ℚ → ℕ
  | best_idx, _, _, [] => best_idx
  | best_idx, best, i, d :: rest =>
    if d < best then argminAux i d (i + 1) rest
    else argminAux best_idx best (i + 1) rest

/-- First index of the minimal element (0 on the empty list). -/
def argminList : List ℚ → ℕ
  | [] => 0
  | d :: rest => argminAux 0 d 1 rest

/-- Mean of a list of rationals (`ndarray.mean()`). -/
def listMean (xs : List ℚ) : ℚ :=
  if xs.length = 0 then 0 else xs.sum / (xs.length : ℚ)

/-- Maximum of a list of naturals (`ndarray.max()`, 0 on empty). -/
def listMaxNat (xs : List ℕ) : ℕ := xs.foldl max 0

/-- orchestrator.py `_run_monte_carlo`: run `num_runs` seeded simulations,
aggregate P10/P50/P90, and re-run the seed whose total net cash flow is
closest to the median as the representative result. -/
def runMonteCarlo {R C : Type} (A : ScnArgs) (orc : StochOracle R C)
    (base_seed : ℕ) (num_runs : ℕ) : SimulationResult :=
  let summaries := (List.range num_runs).map
    (fun i => (runSingleStochastic A orc (base_seed + i)).summary)
  let ncfs := summaries.map (fun s => s.total_net_cash_flow)
  let cpcs := summaries.map (fun s => s.avg_cost_per_cycle)
  let retired : List ℕ := summaries.map (fun s => s.total_packs_retired.getD 0)
  let failures : List ℕ := summaries.map (fun s => s.total_charger_failures.getD 0)
  let fts : List ℕ := summaries.map (fun s => s.total_failure_to_serve.getD 0)
  let be_months := (summaries.filterMap (fun s => s.break_even_month)).map
    (fun m => (m : ℚ))
  let have_be := be_months ≠ []
  let mc : MonteCarloSummary :=
    { num_runs := num_runs
      ncf_p10 := percentileT7 ncfs 10
      ncf_p50 := percentileT7 ncfs 50
      ncf_p90 := percentileT7 ncfs 90
      break_even_p10 := if have_be then some (truncToInt (percentileT7 be_months 10)) else none
      break_even_p50 := if have_be then some (truncToInt (percentileT7 be_months 50)) else none
      break_even_p90 := if have_be then some (truncToInt (percentileT7 be_months 90)) else none
      cpc_p10 := percentileT7 cpcs 10
      cpc_p50 := percentileT7 cpcs 50
      cpc_p90 := percentileT7 cpcs 90
      avg_packs_retired := listMean (retired.map (fun n => (n : ℚ)))
      max_packs_retired := listMaxNat retired
      avg_charger_failures := listMean (failures.map (fun n => (n : ℚ)))
      avg_failure_to_serve := listMean (fts.map (fun n => (n : ℚ)))
      max_failure_to_serve := listMaxNat fts }
  let median_idx := argminList (ncfs.map (fun x => |x - mc.ncf_p50|))
  let representative := runSingleStochastic A orc (base_seed + median_idx)
  { representative with monte_carlo := some mc }

-- ═══════════════════════════════════════════════════════════════════════
-- Stochastic demand generator (engine/demand.py)
-- ═══════════════════════════════════════════════════════════════════════

/-- config/demand.py `DemandConfig.distribution` (`Literal` with exactly
these three validated values). -/
inductive DemandDistribution | poisson | gamma | bimodal
deriving Repr, DecidableEq

/-- config/demand.py `DemandConfig`. -/
structure DemandConfig where
  distribution : DemandDistribution
  volatility : ℚ
  weekend_factor : ℚ
  seasonal_amplitude : ℚ
  bimodal_peak_ratio : ℚ
  bimodal_peak_separation : ℚ
  bimodal_std_ratio : ℚ
deriving Repr, DecidableEq

/-- The vectorized NumPy draws `generate_daily_demand` performs, abstracted
over the RNG state `R` (their float behaviour is irrelevant to the theorems,
which hold for every sampler). -/
structure DemandSamplers (R : Type) where
  poissonVec : R → List ℚ → List ℕ × R
  gammaVec : R → ℚ → List ℚ → List ℚ × R

/-- Constant `DAYS_PER_MONTH = 30` (engine/demand.py). -/
def DAYS_PER_MONTH : ℕ := 30

/-- engine/demand.py `generate_daily_demand`. `sinSeasonal month` stands
for `np.sin(2π · month / 12)` (transcendental, so taken as an oracle;
every theorem below holds for each choice). Note the source has **no
`"bimodal"` branch**: only `"poisson"` and `"gamma"` are handled, and the
final `else` (commented "should not happen with Pydantic validation")
returns the deterministic rounded means — yet `"bimodal"` is a validated
`Literal` value and lands exactly there. -/
def generate_daily_demand {R : Type} (S : DemandSamplers R) (sinSeasonal : ℕ → ℚ)
    (demand : DemandConfig) (swap_visits_per_vehicle_per_day : ℚ)
    (fleet_size : ℕ) (month : ℕ) (rng : R) : List ℤ × R :=
  let base_daily_visits := swap_visits_per_vehicle_per_day * (fleet_size : ℚ)
  let seasonal_factor := 1 + demand.seasonal_amplitude * sinSeasonal month
  let adjusted_base := base_daily_visits * seasonal_factor
  let daily_means := (List.range DAYS_PER_MONTH).map
    (fun d => if d % 7 = 5 ∨ d % 7 = 6 then adjusted_base * demand.weekend_factor
              else adjusted_base)
  let clamped : List ℤ → List ℤ := fun l => l.map (fun v => max v 0)
  match demand.distribution with
  | DemandDistribution.poisson =>
    let (vs, rng1) := S.poissonVec rng (daily_means.map (fun x => max x 0))
    (clamped (vs.map (fun v => (v : ℤ))), rng1)
  | DemandDistribution.gamma =>
    if demand.volatility ≤ 0 then
      (clamped (daily_means.map roundHalfEven), rng)
    else
      let shape := 1 / demand.volatility ^ 2
      let scales := (daily_means.map (fun x => max x 0)).map
        (fun x => max (x * demand.volatility ^ 2) (1 / 10 ^ 10))
      let (raw, rng1) := S.gammaVec rng shape scales
      (clamped (raw.map roundHalfEven), rng1)
  | DemandDistribution.bimodal =>
    -- source fallback: deterministic round of the means, RNG untouched
    (clamped (daily_means.map roundHalfEven), rng)

-- ═══════════════════════════════════════════════════════════════════════
-- Debt schedule (finance/dscr.py)
-- ═══════════════════════════════════════════════════════════════════════

/-- config/finance.py `FinanceConfig` (fields `build_debt_schedule` reads). -/
structure FinanceConfig where
  debt_pct_of_capex : ℚ
  interest_rate_annual : ℚ
  loan_tenor_months : ℕ
  grace_period_months : ℕ
deriving Repr, DecidableEq

/-- models/results.py `DebtScheduleRow`. -/
structure DebtScheduleRow where
  month : ℕ
  opening_balance : ℚ
  interest : ℚ
  principal : ℚ
  emi : ℚ
  closing_balance : ℚ
deriving Repr, DecidableEq

/-- models/results.py `DebtSchedule`. -/
structure DebtSchedule where
  loan_amount : ℚ
  monthly_rate : ℚ
  rows : List DebtScheduleRow
  total_interest_paid : ℚ
  total_principal_paid : ℚ
deriving Repr, DecidableEq

/-- The EMI selection in `build_debt_schedule`: the standard
`P·r·(1+r)^n / ((1+r)^n − 1)` when the rate is positive, straight division
when it is zero, and 0 when no amortization months remain. -/
def debtEmi (loan monthly_rate : ℚ) (amort_months : ℤ) : ℚ :=
  if 0 < monthly_rate ∧ 0 < amort_months then
    let factor := (1 + monthly_rate) ^ amort_months.toNat
    loan * monthly_rate * factor / (factor - 1)
  else if 0 < amort_months then loan / (amort_months : ℚ)
  else 0

/-- The row-building loop of `build_debt_schedule`, kept unrounded: the
Python loop recurses on the unrounded balance and only rounds the fields it
stores in each row. `count` is the number of rows still to emit. -/
def debtRowsRaw (monthly_rate : ℚ) (grace : ℕ) (emi : ℚ) :
    ℚ → ℕ → ℕ → List DebtScheduleRow
  | _, _, 0 => []
  | balance, m, count + 1 =>
    let interest := balance * monthly_rate
    let principal := if m ≤ grace then (0 : ℚ) else min (emi - interest) balance
    let payment := if m ≤ grace then interest else interest + principal
    let closing := balance - principal
    { month := m, opening_balance := balance, interest := interest,
      principal := principal, emi := payment, closing_balance := max closing 0 }
      :: debtRowsRaw monthly_rate grace emi (max closing 0) (m + 1) count

/-- The 2-decimal rounding `build_debt_schedule` applies to each stored row. -/
def roundDebtRow (r : DebtScheduleRow) : DebtScheduleRow :=
  { month := r.month
    opening_balance := pyRound 2 r.opening_balance
    interest := pyRound 2 r.interest
    principal := pyRound 2 r.principal
    emi := pyRound 2 r.emi
    closing_balance := pyRound 2 r.closing_balance }

/-- finance/dscr.py `build_debt_schedule`. -/
def build_debt_schedule (total_initial_capex : ℚ) (cfg : FinanceConfig)
    (horizon_months : ℕ) : DebtSchedule :=
  let loan := total_initial_capex * cfg.debt_pct_of_capex
  if loan ≤ 0 then
    { loan_amount := 0, monthly_rate := 0, rows := [],
      total_interest_paid := 0, total_principal_paid := 0 }
  else
    let monthly_rate := cfg.interest_rate_annual / 12
    let amort_months : ℤ := (cfg.loan_tenor_months : ℤ) - (cfg.grace_period_months : ℤ)
    let emi := debtEmi loan monthly_rate amort_months
    let num_months := min cfg.loan_tenor_months horizon_months
    let raw := debtRowsRaw monthly_rate cfg.grace_period_months emi loan 1 num_months
    { loan_amount := pyRound 2 loan
      monthly_rate := pyRound 6 monthly_rate
      rows := raw.map roundDebtRow
      total_interest_paid := pyRound 2 ((raw.map (fun r => r.interest)).sum)
      total_principal_paid := pyRound 2 ((raw.map (fun r => r.principal)).sum) }

-- ═══════════════════════════════════════════════════════════════════════
-- IRR (finance/dcf.py `compute_irr`)
-- ═══════════════════════════════════════════════════════════════════════

/-- The bisection loop of `compute_irr`. `npv` abstracts `compute_npv`
(whose monthly rate `(1+r)^(1/12) − 1` is irrational, so the NPV function
is a parameter; every theorem holds for each choice). Mirrors the source:
return `mid` when `|NPV(mid)| < tol` or when the bracket after the update
is narrower than `tol`; after the final iteration return the midpoint. -/
def irrBisect (npv : List ℚ → ℚ → ℚ) (flows : List ℚ) (tol : ℚ) :
    ℕ → ℚ → ℚ → ℚ
  | 0, low, high => (low + high) / 2
  | fuel + 1, low, high =>
    let mid := (low + high) / 2
    let npv_mid := npv flows mid
    if |npv_mid| < tol then mid
    else
      let npv_low := npv flows low
      let lh := if npv_low * npv_mid < 0 then (low, mid) else (mid, high)
      if lh.2 - lh.1 < tol then mid
      else irrBisect npv flows tol fuel lh.1 lh.2

/-- finance/dcf.py `compute_irr` (defaults `max_iter=200`, `tol=1e-8`):
`None` when fewer than two flows or no sign change, else bisection over
annual rates in `[−0.5, 10.0]`. -/
def compute_irr (npv : List ℚ → ℚ → ℚ) (cash_flows : List ℚ)
    (max_iter : ℕ := 200) (tol : ℚ := 1 / 100000000) : Option ℚ :=
  if cash_flows.length < 2 then none
  else
    let has_positive := cash_flows.any (fun cf => decide (0 < cf))
    let has_negative := cash_flows.any (fun cf => decide (cf < 0))
    if has_positive && has_negative then
      some (irrBisect npv cash_flows tol max_iter (-(1/2)) 10)
    else none

-- ═══════════════════════════════════════════════════════════════════════
-- Tracker usage pattern of the stochastic monthly loop, abstracted over
-- the demand totals (C5), and the S4 lumpy-CapEx run (C1)
-- ═══════════════════════════════════════════════════════════════════════

/-- Month `m` of the stochastic loop as the degradation tracker sees it:
`step(m, cycles m)` followed by the optional growth `add_cohort` of
`orchestrator.py` step 6 (`adds m = some k` registers a cohort of `k`
packs born in month `m` after the step). -/
def orchMonthTracker (p : TrackerParams) (cycles : ℕ → ℕ) (adds : ℕ → Option ℕ)
    (s : TrackerState) (m : ℕ) : TrackerState :=
  let s1 := (stepTracker p s m (cycles m)).2
  match adds m with
  | some k => addCohort s1 k m
  | none => s1

/-- Tracker state after months `1..m` of a stochastic run that starts from
the single initial cohort (born month 1) of `n0` packs. -/
def orchTrackerStates (p : TrackerParams) (cycles : ℕ → ℕ) (adds : ℕ → Option ℕ)
    (n0 : ℕ) : ℕ → TrackerState
  | 0 => addCohort { cohorts := [], next_id := 0 } n0 1
  | m + 1 => orchMonthTracker p cycles adds (orchTrackerStates p cycles adds n0 m) (m + 1)

/-- How one cohort record may change over one month of the loop:
identity fields frozen, cycles non-decreasing, retired cohorts frozen
entirely, active cohorts lose SOH and can only retire with the current
month recorded. -/
def CohortEvolves (m : ℕ) (old new : Cohort) : Prop :=
  new.cohort_id = old.cohort_id ∧
  new.born_month = old.born_month ∧
  new.pack_count = old.pack_count ∧
  old.cumulative_cycles ≤ new.cumulative_cycles ∧
  (old.is_retired = true → new = old) ∧
  (old.is_retired = false →
    new.current_soh ≤ old.current_soh ∧
    (new.is_retired = true → new.retired_month = some m) ∧
    (new.is_retired = false → new.retired_month = old.retired_month))

/-- S4 pack (β = 0.10 %/cycle, calendar 0, retirement SOH 0.70) with the
unit cost and salvage value left symbolic. -/
def s4pack (u sv : ℚ) : PackSpec :=
  { nominal_capacity_kwh := 32/25
    unit_cost := u
    cycle_degradation_rate_pct := 1/10
    calendar_aging_rate_pct_per_month := 0
    retirement_soh_pct := 7/10
    second_life_salvage_value := sv
    mtbf_hours := 50000
    mttr_hours := 4
    repair_cost_per_event := 2000
    replacement_threshold := 3
    full_replacement_cost := 15000
    spare_packs_cost_per_station := 30000 }

/-- Neutral chaos config (aggressiveness 1). -/
def s4chaos : ChaosConfig :=
  { sabotage_pct_per_month := 1/200, aggressiveness_index := 1 }

/-- The tracker constants the S4 pack produces in the stochastic engine
(`auto_replace = True` as in `_run_single_stochastic`). -/
def s4params : TrackerParams :=
  { beta_per_cycle := 1/10/100 * 1
    calendar_per_month := 0
    retirement_soh := 7/10
    auto_replace := true }

/-- S4 run: a single cohort of 100 packs born month 1, stepped with
10 000 total fleet cycles every month. `s4states m` is the tracker state
after month `m`. -/
def s4states : ℕ → TrackerState
  | 0 => addCohort { cohorts := [], next_id := 0 } 100 1
  | m + 1 => (stepTracker s4params (s4states m) (m + 1) 10000).2

/-- The step result the S4 run reports for month `m ≥ 1`. -/
def s4result (m : ℕ) : DegradationStepResult :=
  (stepTracker s4params (s4states (m - 1)) m 10000).1

/-- orchestrator.py line `replacement_capex = deg_result.packs_retired × unit_cost`. -/
def s4ReplacementCapex (u : ℚ) (m : ℕ) : ℚ :=
  ((s4result m).packs_retired : ℚ) * u

/-- orchestrator.py line `salvage_credit = deg_result.packs_retired × salvage`. -/
def s4SalvageCredit (sv : ℚ) (m : ℕ) : ℚ :=
  ((s4result m).packs_retired : ℚ) * sv

-- ═══════════════════════════════════════════════════════════════════════
-- Concrete scenarios for counterexamples and witnesses
-- ═══════════════════════════════════════════════════════════════════════

/-- A minimal valid scenario: every config field inside its validated
range, all site costs zero, one station with one dock. The fleet size and
the horizon are the knobs. `svpd = 10·1/(1·1·(1−0)·1000) = 0.01`. -/
def tinyArgs (fleet horizon : ℕ) : ScnArgs :=
  { vehicle :=
      { packs_per_vehicle := 1, pack_capacity_kwh := 1, avg_daily_km := 10,
        energy_consumption_wh_per_km := 1, range_anxiety_buffer_pct := 0 }
    pack :=
      { nominal_capacity_kwh := 1, unit_cost := 0,
        cycle_degradation_rate_pct := 1/100, calendar_aging_rate_pct_per_month := 0,
        retirement_soh_pct := 7/10, second_life_salvage_value := 0,
        mtbf_hours := 1000, mttr_hours := 1, repair_cost_per_event := 0,
        replacement_threshold := 1, full_replacement_cost := 0,
        spare_packs_cost_per_station := 0 }
    charger :=
      { purchase_cost_per_slot := 0, rated_power_w := 1000,
        charging_efficiency_pct := 1, mtbf_hours := 1000, mttr_hours := 1,
        repair_cost_per_event := 1200, replacement_threshold := 1,
        full_replacement_cost := 0, spare_inventory_cost := 0 }
    station :=
      { cabinet_cost := 0, site_prep_cost := 0, grid_connection_cost := 0,
        software_cost := 0, security_deposit := 0, num_stations := 1,
        docks_per_station := 1, operating_hours_per_day := 10 }
    opex :=
      { electricity_tariff_per_kwh := 0, auxiliary_power_per_month := 0,
        rent_per_month_per_station := 0,
        preventive_maintenance_per_month_per_station := 0,
        corrective_maintenance_per_month_per_station := 0,
        insurance_per_month_per_station := 0,
        logistics_per_month_per_station := 0,
        pack_handling_labor_per_swap := 0, overhead_per_month := 0 }
    revenue := { price_per_swap := 80, initial_fleet_size := fleet,
                 monthly_fleet_additions := 0 }
    chaos := { sabotage_pct_per_month := 0, aggressiveness_index := 1 }
    simulation := { horizon_months := horizon } }

/-- Doubling `revenue.initial_fleet_size` with everything else fixed. -/
def doubleFleet (A : ScnArgs) : ScnArgs :=
  { A with revenue := { A.revenue with
      initial_fleet_size := 2 * A.revenue.initial_fleet_size } }

/-- Variant of `tinyArgs` with `avg_daily_km = 100`, so that `svpd = 0.1` and monthly
visit counts are whole numbers. -/
def tinyArgsInt (fleet horizon : ℕ) : ScnArgs :=
  { tinyArgs fleet horizon with vehicle :=
      { (tinyArgs fleet horizon).vehicle with avg_daily_km := 100 } }

/-- S2 scenario (S1 inputs with MTBF 8000, MTTR 24, horizon 60 months,
replacement threshold 3). -/
def s2args : ScnArgs :=
  { vehicle :=
      { packs_per_vehicle := 2, pack_capacity_kwh := 32/25, avg_daily_km := 100,
        energy_consumption_wh_per_km := 30, range_anxiety_buffer_pct := 1/5 }
    pack := s4pack 18000 6000
    charger :=
      { purchase_cost_per_slot := 15000, rated_power_w := 1000,
        charging_efficiency_pct := 9/10, mtbf_hours := 8000, mttr_hours := 24,
        repair_cost_per_event := 1000, replacement_threshold := 3,
        full_replacement_cost := 9500, spare_inventory_cost := 10000 }
    station :=
      { cabinet_cost := 50000, site_prep_cost := 30000,
        grid_connection_cost := 500000, software_cost := 100000,
        security_deposit := 20000, num_stations := 5, docks_per_station := 8,
        operating_hours_per_day := 18 }
    opex :=
      { electricity_tariff_per_kwh := 13/2, auxiliary_power_per_month := 2000,
        rent_per_month_per_station := 15000,
        preventive_maintenance_per_month_per_station := 3000,
        corrective_maintenance_per_month_per_station := 1000,
        insurance_per_month_per_station := 2000,
        logistics_per_month_per_station := 5000,
        pack_handling_labor_per_swap := 2, overhead_per_month := 20000 }
    revenue := { price_per_swap := 80, initial_fleet_size := 200,
                 monthly_fleet_additions := 0 }
    chaos := s4chaos
    simulation := { horizon_months := 60 } }

/-- The charger TCO breakdown of the S2 scenario. -/
def s2tco : ChargerTCOBreakdown :=
  compute_charger_tco s2args.charger (derivedOf s2args) s2args.vehicle
    s2args.revenue s2args.simulation s2args.station

/-- A trivial concrete demand-sampler instance over a unit RNG state. -/
def unitDemandSamplers : DemandSamplers Unit :=
  { poissonVec := fun r l => (l.map (fun _ => 0), r)
    gammaVec := fun r _ l => (l, r) }

/-- A `DemandConfig` selecting the bimodal distribution, with the source
defaults for the remaining fields. -/
def bimodalCfg : DemandConfig :=
  { distribution := DemandDistribution.bimodal
    volatility := 3/20
    weekend_factor := 3/5
    seasonal_amplitude := 0
    bimodal_peak_ratio := 3/5
    bimodal_peak_separation := 1/2
    bimodal_std_ratio := 3/20 }

/-- A trivial concrete oracle instance (unit RNG and charger state) used to
instantiate the determinism theorem at a closed input. -/
def unitOracle : StochOracle Unit Unit :=
  { rngInit := fun _ => ()
    demandSample := fun _ fleet _ => (fleet, ())
    chargerInit := ()
    chargerStep := fun _ _ => ({ failures := 0, repair_cost := 0, replacement_cost := 0 }, (), ()) }

-- ═══════════════════════════════════════════════════════════════════════
-- Helper lemmas
-- ═══════════════════════════════════════════════════════════════════════

theorem ratFloor_eq_floor (q : ℚ) : ratFloor q = ⌊q⌋ := by
  rw [Rat.floor_def, ratFloor]

theorem roundHalfEven_intCast (k : ℤ) : roundHalfEven (k : ℚ) = k := by
  simp [roundHalfEven, ratFloor_eq_floor]

theorem abs_roundHalfEven_sub_le (q : ℚ) : |(roundHalfEven q : ℚ) - q| ≤ 1/2 := by
  have h0 : ((⌊q⌋ : ℚ)) ≤ q := Int.floor_le q
  have h1 : q < (⌊q⌋ : ℚ) + 1 := Int.lt_floor_add_one q
  unfold roundHalfEven
  rw [ratFloor_eq_floor]
  dsimp only
  split_ifs with ha hb hc <;> rw [abs_le] <;> constructor <;> push_cast <;> linarith

theorem abs_pyRound_sub_le (n : ℕ) (q : ℚ) : |pyRound n q - q| ≤ 1 / (2 * 10 ^ n) := by
  have hp : (0:ℚ) < 10 ^ n := by positivity
  have h := abs_roundHalfEven_sub_le (q * 10 ^ n)
  have heq : pyRound n q - q = ((roundHalfEven (q * 10 ^ n) : ℚ) - q * 10 ^ n) / 10 ^ n := by
    unfold pyRound
    field_simp
    ring
  rw [heq, abs_div, abs_of_pos hp,
    show (1:ℚ) / (2 * 10 ^ n) = (1/2) / 10 ^ n by ring]
  exact (div_le_div_iff_of_pos_right hp).mpr h

theorem abs_pyRound4_sum9_le (x1 x2 x3 x4 x5 x6 x7 x8 x9 : ℚ) :
    |pyRound 4 (x1 + x2 + x3 + x4 + x5 + x6 + x7 + x8 + x9)
      - (pyRound 4 x1 + pyRound 4 x2 + pyRound 4 x3 + pyRound 4 x4 + pyRound 4 x5
        + pyRound 4 x6 + pyRound 4 x7 + pyRound 4 x8 + pyRound 4 x9)| ≤ 1/100 := by
  have e : (1:ℚ) / (2 * 10 ^ 4) = 1/20000 := by norm_num
  have h0 := abs_pyRound_sub_le 4 (x1 + x2 + x3 + x4 + x5 + x6 + x7 + x8 + x9)
  have h1 := abs_pyRound_sub_le 4 x1
  have h2 := abs_pyRound_sub_le 4 x2
  have h3 := abs_pyRound_sub_le 4 x3
  have h4 := abs_pyRound_sub_le 4 x4
  have h5 := abs_pyRound_sub_le 4 x5
  have h6 := abs_pyRound_sub_le 4 x6
  have h7 := abs_pyRound_sub_le 4 x7
  have h8 := abs_pyRound_sub_le 4 x8
  have h9 := abs_pyRound_sub_le 4 x9
  rw [e, abs_le] at h0 h1 h2 h3 h4 h5 h6 h7 h8 h9
  rw [abs_le]
  constructor <;> linarith [h0.1, h0.2, h1.1, h1.2, h2.1, h2.2, h3.1, h3.2, h4.1, h4.2,
    h5.1, h5.2, h6.1, h6.2, h7.1, h7.2, h8.1, h8.2, h9.1, h9.2]

-- ═══════════════════════════════════════════════════════════════════════
-- Claim theorems
-- ═══════════════════════════════════════════════════════════════════════

/-- C4: for every input of `compute_cpc_waterfall` — hence for every
scenario — the returned waterfall satisfies
|total − (battery + charger + electricity + real_estate + maintenance +
insurance + sabotage + logistics + overhead)| ≤ 0.01, including the
degenerate case `total_network_cycles_per_month ≤ 0` in which every
component and the total are 0. -/
theorem cpc_waterfall_additivity (derived : DerivedParams) (pack : PackSpec)
    (charger : ChargerVariant) (opex : OpExConfig) (chaos : ChaosConfig)
    (station : StationConfig) (tco : ChargerTCOBreakdown) (ptco : PackTCOBreakdown) :
    let w := compute_cpc_waterfall derived pack charger opex chaos station tco ptco
    |w.total - (w.battery + w.charger + w.electricity + w.real_estate + w.maintenance
      + w.insurance + w.sabotage + w.logistics + w.overhead)| ≤ 1/100 := by
  unfold compute_cpc_waterfall
  by_cases hdeg : derived.total_network_cycles_per_month ≤ 0
  · simp [hdeg]
  · simp only [if_neg hdeg]
    exact abs_pyRound4_sum9_le _ _ _ _ _ _ _ _ _

/-- C2: `compute_charger_tco` works at population scale: for every scenario
(with the validated bounds `mtbf_hours > 0`, `mttr_hours ≥ 0`,
`replacement_threshold ≥ 1`), `fleet_operating_hours = hours/day × 365 ×
(horizon/12) × total_docks`, `expected_failures = fleet_operating_hours ÷
MTBF`, `replacements = ⌊expected_failures ÷ replacement_threshold⌋` and
`availability = MTBF ÷ (MTBF + MTTR)` (each stored after the source
rounding); and on the S2 inputs (18 h/day, 5 stations × 8 docks,
MTBF 8000, MTTR 24, horizon 60, threshold 3) the breakdown reports
fleet_operating_hours = 1 314 000, expected_failures = 164.25,
replacements = 54 and availability = 8000/8024 (rounded to 6 dp). -/
theorem charger_tco_fleet_level :
    (∀ (charger : ChargerVariant) (derived : DerivedParams) (vehicle : VehicleConfig)
       (revenue : RevenueConfig) (simulation : SimulationConfig) (station : StationConfig),
      0 < charger.mtbf_hours → 0 ≤ charger.mttr_hours → 0 < charger.replacement_threshold →
      let tco := compute_charger_tco charger derived vehicle revenue simulation station
      let fleet_hours := station.operating_hours_per_day * 365
        * ((simulation.horizon_months : ℚ) / 12) * (derived.total_docks : ℚ)
      tco.fleet_operating_hours = pyRound 1 fleet_hours ∧
      tco.expected_failures_over_horizon = pyRound 2 (fleet_hours / charger.mtbf_hours) ∧
      tco.num_replacements
        = ⌊(fleet_hours / charger.mtbf_hours) / (charger.replacement_threshold : ℚ)⌋ ∧
      tco.availability
        = pyRound 6 (charger.mtbf_hours / (charger.mtbf_hours + charger.mttr_hours)))
    ∧ (s2tco.fleet_operating_hours = 1314000
      ∧ s2tco.expected_failures_over_horizon = 657/4
      ∧ s2tco.num_replacements = 54
      ∧ s2tco.availability = 997009/1000000
      ∧ (997009/1000000 : ℚ) = pyRound 6 (8000/8024)) := by
  constructor
  · intro charger derived vehicle revenue simulation station hm ht hr
    have hmm : 0 < charger.mtbf_hours + charger.mttr_hours := by linarith
    refine ⟨?_, ?_, ?_, ?_⟩ <;>
      simp [compute_charger_tco, hm, hr, hmm, ratFloor_eq_floor,
        mul_comm, mul_assoc, mul_left_comm]
  · refine ⟨?_, ?_, ?_, ?_, ?_⟩ <;>
      norm_num [s2tco, s2args, s4pack, s4chaos, compute_charger_tco, derivedOf,
        compute_derived_params, pyRound, roundHalfEven, ratFloor]

/-- C2 witness: the fleet-level theorem applied at the concrete S2 inputs,
its hypotheses discharged there. -/
theorem charger_tco_fleet_level_witness :
    (0 : ℚ) < 8000 ∧
    s2tco.expected_failures_over_horizon
      = pyRound 2 ((s2args.station.operating_hours_per_day * 365
          * ((s2args.simulation.horizon_months : ℚ) / 12)
          * ((derivedOf s2args).total_docks : ℚ)) / s2args.charger.mtbf_hours) :=
  ⟨by norm_num,
   (charger_tco_fleet_level.1 s2args.charger (derivedOf s2args) s2args.vehicle
     s2args.revenue s2args.simulation s2args.station (by norm_num [s2args])
     (by norm_num [s2args]) (by norm_num [s2args])).2.1⟩

/-- C1: lumpy replacement CapEx on the S4 inputs (β = 0.10 %/cycle,
calendar 0, retirement SOH 0.70, one cohort of 100 packs, 10 000 fleet
cycles allocated each month, stochastic-engine tracker constants with
auto-replace on): the cohort is retired exactly once in months 1–6 —
in month 3, where `packs_retired = 100`,
`replacement_capex = 100 × unit_cost` and `salvage_credit = 100 × salvage`
— while months 1, 2, 4 and 5 report `packs_retired = 0`. The last conjunct
pins the month-3 retirement of the cohort (id 0) as permanent through
month 6. -/
theorem lumpy_capex_s4 (u sv : ℚ) :
    trackerParamsOf (s4pack u sv) s4chaos true = s4params
  ∧ (s4result 1).packs_retired = 0 ∧ (s4result 2).packs_retired = 0
  ∧ (s4result 3).packs_retired = 100
  ∧ (s4result 4).packs_retired = 0 ∧ (s4result 5).packs_retired = 0
  ∧ s4ReplacementCapex u 3 = 100 * u
  ∧ s4SalvageCredit sv 3 = 100 * sv
  ∧ (∀ m, m < 7 → ∀ c ∈ (s4states m).cohorts, c.cohort_id = 0 →
      ((c.is_retired = true ↔ 3 ≤ m) ∧ (3 ≤ m → c.retired_month = some 3))) := by
  have S0 : s4states 0 = ⟨[⟨0,1,100,1,0,false,none⟩], 1⟩ := by
    norm_num [s4states, addCohort]
  have S1 : s4states 1 = ⟨[⟨0,1,100,9/10,100,false,none⟩], 1⟩ := by
    rw [show s4states 1 = (stepTracker s4params (s4states 0) 1 10000).2 from rfl, S0]
    norm_num [stepTracker, activePackCount, avgSoh, degradeCohort, addCohort,
      cohortSnapshot, pyRound, roundHalfEven, ratFloor, s4params, List.filter, List.foldl]
  have S2 : s4states 2 = ⟨[⟨0,1,100,4/5,200,false,none⟩], 1⟩ := by
    rw [show s4states 2 = (stepTracker s4params (s4states 1) 2 10000).2 from rfl, S1]
    norm_num [stepTracker, activePackCount, avgSoh, degradeCohort, addCohort,
      cohortSnapshot, pyRound, roundHalfEven, ratFloor, s4params, List.filter, List.foldl]
  have S3 : s4states 3
      = ⟨[⟨0,1,100,7/10,300,true,some 3⟩, ⟨1,3,100,1,0,false,none⟩], 2⟩ := by
    rw [show s4states 3 = (stepTracker s4params (s4states 2) 3 10000).2 from rfl, S2]
    norm_num [stepTracker, activePackCount, avgSoh, degradeCohort, addCohort,
      cohortSnapshot, pyRound, roundHalfEven, ratFloor, s4params, List.filter, List.foldl]
  have S4 : s4states 4
      = ⟨[⟨0,1,100,7/10,300,true,some 3⟩, ⟨1,3,100,9/10,100,false,none⟩], 2⟩ := by
    rw [show s4states 4 = (stepTracker s4params (s4states 3) 4 10000).2 from rfl, S3]
    norm_num [stepTracker, activePackCount, avgSoh, degradeCohort, addCohort,
      cohortSnapshot, pyRound, roundHalfEven, ratFloor, s4params, List.filter, List.foldl]
  have S5 : s4states 5
      = ⟨[⟨0,1,100,7/10,300,true,some 3⟩, ⟨1,3,100,4/5,200,false,none⟩], 2⟩ := by
    rw [show s4states 5 = (stepTracker s4params (s4states 4) 5 10000).2 from rfl, S4]
    norm_num [stepTracker, activePackCount, avgSoh, degradeCohort, addCohort,
      cohortSnapshot, pyRound, roundHalfEven, ratFloor, s4params, List.filter, List.foldl]
  have S6 : s4states 6
      = ⟨[⟨0,1,100,7/10,300,true,some 3⟩, ⟨1,3,100,7/10,300,true,some 6⟩,
          ⟨2,6,100,1,0,false,none⟩], 3⟩ := by
    rw [show s4states 6 = (stepTracker s4params (s4states 5) 6 10000).2 from rfl, S5]
    norm_num [stepTracker, activePackCount, avgSoh, degradeCohort, addCohort,
      cohortSnapshot, pyRound, roundHalfEven, ratFloor, s4params, List.filter, List.foldl]
  have R1 : (s4result 1).packs_retired = 0 := by
    rw [show s4result 1 = (stepTracker s4params (s4states 0) 1 10000).1 from rfl, S0]
    norm_num [stepTracker, activePackCount, avgSoh, degradeCohort, addCohort,
      cohortSnapshot, pyRound, roundHalfEven, ratFloor, s4params, List.filter, List.foldl]
  have R2 : (s4result 2).packs_retired = 0 := by
    rw [show s4result 2 = (stepTracker s4params (s4states 1) 2 10000).1 from rfl, S1]
    norm_num [stepTracker, activePackCount, avgSoh, degradeCohort, addCohort,
      cohortSnapshot, pyRound, roundHalfEven, ratFloor, s4params, List.filter, List.foldl]
  have R3 : (s4result 3).packs_retired = 100 := by
    rw [show s4result 3 = (stepTracker s4params (s4states 2) 3 10000).1 from rfl, S2]
    norm_num [stepTracker, activePackCount, avgSoh, degradeCohort, addCohort,
      cohortSnapshot, pyRound, roundHalfEven, ratFloor, s4params, List.filter, List.foldl]
  have R4 : (s4result 4).packs_retired = 0 := by
    rw [show s4result 4 = (stepTracker s4params (s4states 3) 4 10000).1 from rfl, S3]
    norm_num [stepTracker, activePackCount, avgSoh, degradeCohort, addCohort,
      cohortSnapshot, pyRound, roundHalfEven, ratFloor, s4params, List.filter, List.foldl]
  have R5 : (s4result 5).packs_retired = 0 := by
    rw [show s4result 5 = (stepTracker s4params (s4states 4) 5 10000).1 from rfl, S4]
    norm_num [stepTracker, activePackCount, avgSoh, degradeCohort, addCohort,
      cohortSnapshot, pyRound, roundHalfEven, ratFloor, s4params, List.filter, List.foldl]
  refine ⟨by norm_num [trackerParamsOf, s4pack, s4chaos, s4params], R1, R2, R3, R4, R5,
    ?_, ?_, ?_⟩
  · rw [s4ReplacementCapex, R3]; norm_num
  · rw [s4SalvageCredit, R3]; norm_num
  · intro m hm
    interval_cases m
    · rw [S0]; norm_num
    · rw [S1]; norm_num
    · rw [S2]; norm_num
    · rw [S3]; norm_num
    · rw [S4]; norm_num
    · rw [S5]; norm_num
    · rw [S6]; norm_num

/-- C1 witness: the S4 lumpy-CapEx theorem instantiated at unit cost 18 000
and salvage 6 000. -/
theorem lumpy_capex_s4_witness :
    s4ReplacementCapex 18000 3 = 1800000 ∧ s4SalvageCredit 6000 3 = 600000 :=
  ⟨((lumpy_capex_s4 18000 6000).2.2.2.2.2.2.1).trans (by norm_num),
   ((lumpy_capex_s4 18000 6000).2.2.2.2.2.2.2.1).trans (by norm_num)⟩

/-- C6 (code bug): with `distribution = "bimodal"` the daily demand
generator is **deterministic**: for every pair of samplers and RNG states
the output is identical, the RNG is returned untouched (no draw is ever
made), and each daily count is the rounded daily mean — not a sample from
the two-Normal mixture that the `DemandConfig` documentation and the
spec describe. The `"bimodal"` value lands in the fallback branch, whose
comment claims it is unreachable for validated configs. -/
theorem bimodal_demand_deterministic :
    ∀ (R R2 : Type) (S : DemandSamplers R) (S2 : DemandSamplers R2)
      (sinS : ℕ → ℚ) (d : DemandConfig) (svpd : ℚ) (fleet month : ℕ)
      (rng : R) (rng2 : R2),
      d.distribution = DemandDistribution.bimodal →
      (generate_daily_demand S sinS d svpd fleet month rng).1
        = (generate_daily_demand S2 sinS d svpd fleet month rng2).1
      ∧ (generate_daily_demand S sinS d svpd fleet month rng).2 = rng
      ∧ (generate_daily_demand S sinS d svpd fleet month rng).1
        = (List.range DAYS_PER_MONTH).map (fun day =>
            max (roundHalfEven
              (if day % 7 = 5 ∨ day % 7 = 6
               then svpd * (fleet : ℚ) * (1 + d.seasonal_amplitude * sinS month)
                    * d.weekend_factor
               else svpd * (fleet : ℚ) * (1 + d.seasonal_amplitude * sinS month))) 0) := by
  intro R R2 S S2 sinS d svpd fleet month rng rng2 h
  unfold generate_daily_demand
  rw [h]
  refine ⟨rfl, rfl, ?_⟩
  simp only [List.map_map]
  apply List.map_congr_left
  intro day _
  by_cases hw : day % 7 = 5 ∨ day % 7 = 6 <;> simp [hw, Function.comp]

/-- C6 witness: the bimodal-determinism theorem at a closed input (unit
samplers, zero sine oracle, the default bimodal config, svpd = 1/2,
fleet 10, month 1), hypothesis discharged by `rfl`. -/
theorem bimodal_demand_deterministic_witness :
    bimodalCfg.distribution = DemandDistribution.bimodal ∧
    (generate_daily_demand unitDemandSamplers (fun _ => 0) bimodalCfg (1/2) 10 1 ()).2
      = () := by
  refine ⟨rfl, ?_⟩
  exact (bimodal_demand_deterministic Unit Unit unitDemandSamplers unitDemandSamplers
    (fun _ => 0) bimodalCfg (1/2) 10 1 () () rfl).2.1

theorem debtRowsRaw_length (r : ℚ) (g : ℕ) (e : ℚ) :
    ∀ (n : ℕ) (b : ℚ) (m : ℕ), (debtRowsRaw r g e b m n).length = n := by
  intro n
  induction n with
  | zero => intro b m; rfl
  | succ k ih => intro b m; simp [debtRowsRaw, ih]

theorem debtRowsRaw_spec (r : ℚ) (g : ℕ) (e : ℚ) :
    ∀ (n : ℕ) (b : ℚ) (m : ℕ) (i : ℕ) (h : i < (debtRowsRaw r g e b m n).length),
      let row := (debtRowsRaw r g e b m n).get ⟨i, h⟩
      row.month = m + i ∧
      row.interest = row.opening_balance * r ∧
      (row.month ≤ g → row.principal = 0 ∧ row.emi = row.interest) ∧
      (g < row.month →
        row.principal = min (e - row.interest) row.opening_balance ∧
        row.emi = row.interest + row.principal) := by
  intro n
  induction n with
  | zero => intro b m i h; simp [debtRowsRaw] at h
  | succ k ih =>
    intro b m i h
    cases i with
    | zero =>
      by_cases hg : m ≤ g <;>
        simp [debtRowsRaw, hg, Nat.lt_of_not_le, not_le]
    | succ j =>
      have hj : j < (debtRowsRaw r g e
          (max (b - (if m ≤ g then (0:ℚ) else min (e - b * r) b)) 0) (m + 1) k).length := by
        rw [debtRowsRaw_length]
        rw [debtRowsRaw_length] at h
        omega
      have := ih (max (b - (if m ≤ g then (0:ℚ) else min (e - b * r) b)) 0) (m + 1) j hj
      simpa [debtRowsRaw, Nat.add_assoc, Nat.add_comm 1 j, Nat.add_left_comm] using this

/-- C7: shape of `build_debt_schedule` for positive initial CapEx.
If the loan is zero or negative the schedule is empty. Otherwise there is
one row per month `m ∈ [1, min(tenor, horizon)]` (the stored rows are the
2-decimal roundings of the unrounded loop rows); during the grace period
`principal = 0` and the payment is interest only; after the grace period
`principal = min(EMI − interest, opening)` and the payment is
`interest + principal` — hence exactly the EMI whenever the clamp is slack —
where the EMI for a positive rate is `P·r·(1+r)^n / ((1+r)^n − 1)` with
`n = tenor − grace`. -/
theorem debt_schedule_shape (capex : ℚ) (cfg : FinanceConfig) (horizon : ℕ)
    (hcx : 0 < capex) :
    (capex * cfg.debt_pct_of_capex ≤ 0 →
      (build_debt_schedule capex cfg horizon).rows = []) ∧
    (0 < capex * cfg.debt_pct_of_capex →
      let loan := capex * cfg.debt_pct_of_capex
      let r := cfg.interest_rate_annual / 12
      let amort : ℤ := (cfg.loan_tenor_months : ℤ) - (cfg.grace_period_months : ℤ)
      let emi := debtEmi loan r amort
      let raw := debtRowsRaw r cfg.grace_period_months emi loan 1
        (min cfg.loan_tenor_months horizon)
      (build_debt_schedule capex cfg horizon).rows = raw.map roundDebtRow ∧
      raw.length = min cfg.loan_tenor_months horizon ∧
      (0 < r → 0 < amort →
        emi = loan * r * (1 + r) ^ amort.toNat / ((1 + r) ^ amort.toNat - 1)) ∧
      (∀ i (h : i < raw.length),
        let row := raw.get ⟨i, h⟩
        row.month = i + 1 ∧
        row.interest = row.opening_balance * r ∧
        (row.month ≤ cfg.grace_period_months →
          row.principal = 0 ∧ row.emi = row.interest) ∧
        (cfg.grace_period_months < row.month →
          row.principal = min (emi - row.interest) row.opening_balance ∧
          row.emi = row.interest + row.principal ∧
          (emi - row.interest ≤ row.opening_balance → row.emi = emi)))) := by
  constructor
  · intro hle
    unfold build_debt_schedule
    rw [if_pos hle]
  · intro hpos
    have hnle : ¬ (capex * cfg.debt_pct_of_capex ≤ 0) := not_le.mpr hpos
    refine ⟨?_, ?_, ?_, ?_⟩
    · unfold build_debt_schedule
      rw [if_neg hnle]
    · exact debtRowsRaw_length _ _ _ _ _ _
    · intro hr ha
      unfold debtEmi
      rw [if_pos ⟨hr, ha⟩]
    · intro i h
      have hs := debtRowsRaw_spec (cfg.interest_rate_annual / 12)
        cfg.grace_period_months
        (debtEmi (capex * cfg.debt_pct_of_capex) (cfg.interest_rate_annual / 12)
          ((cfg.loan_tenor_months : ℤ) - (cfg.grace_period_months : ℤ)))
        (min cfg.loan_tenor_months horizon) (capex * cfg.debt_pct_of_capex) 1 i h
      refine ⟨by rw [hs.1]; omega, hs.2.1, hs.2.2.1, ?_⟩
      intro hg
      obtain ⟨hp, he⟩ := hs.2.2.2 hg
      refine ⟨hp, he, ?_⟩
      intro hle
      rw [he, hp, min_eq_left hle]
      ring

/-- C7 witness: the debt-schedule theorem at CapEx 1000, 50 % debt, 12 %
annual rate, 12-month tenor, 2-month grace, 6-month horizon; the loan is
500 > 0 and the schedule has 6 rows. -/
theorem debt_schedule_shape_witness :
    (0 : ℚ) < 1000 ∧
    (0 : ℚ) < 1000 * (⟨1/2, 12/100, 12, 2⟩ : FinanceConfig).debt_pct_of_capex ∧
    ((build_debt_schedule 1000 ⟨1/2, 12/100, 12, 2⟩ 6).rows = [] → False) := by
  have h := debt_schedule_shape 1000 ⟨1/2, 12/100, 12, 2⟩ 6 (by norm_num)
  have hpos : (0 : ℚ) < 1000 * (⟨1/2, 12/100, 12, 2⟩ : FinanceConfig).debt_pct_of_capex := by
    norm_num
  refine ⟨by norm_num, hpos, ?_⟩
  intro hempty
  have hrows := (h.2 hpos).1
  have hlen := (h.2 hpos).2.1
  rw [hrows] at hempty
  have : (min (12 : ℕ) 6) = 0 := by
    rw [← hlen, ← List.length_map _ roundDebtRow, hempty]
    rfl
  omega

theorem irrBisect_mem (npv : List ℚ → ℚ → ℚ) (flows : List ℚ) (tol : ℚ) :
    ∀ (fuel : ℕ) (low high : ℚ), low ≤ high →
      low ≤ irrBisect npv flows tol fuel low high
        ∧ irrBisect npv flows tol fuel low high ≤ high := by
  intro fuel
  induction fuel with
  | zero =>
    intro low high hlh
    constructor <;> simp [irrBisect] <;> linarith
  | succ k ih =>
    intro low high hlh
    have hmid_lo : low ≤ (low + high) / 2 := by linarith
    have hmid_hi : (low + high) / 2 ≤ high := by linarith
    unfold irrBisect
    dsimp only
    split_ifs with h1 h2 h3 h4
    · exact ⟨hmid_lo, hmid_hi⟩
    · exact ⟨hmid_lo, hmid_hi⟩
    · have := ih low ((low + high) / 2) hmid_lo
      exact ⟨this.1, le_trans this.2 hmid_hi⟩
    · exact ⟨hmid_lo, hmid_hi⟩
    · have := ih ((low + high) / 2) high hmid_hi
      exact ⟨le_trans hmid_lo this.1, this.2⟩

/-- C8: `compute_irr` returns `None` exactly when the cash-flow list has
no sign change (no strictly positive flow or no strictly negative flow —
which subsumes lists of fewer than two flows); whenever both signs occur
it returns a numeric annual rate, produced by the bisection on
`[−0.5, 10.0]` and lying in that bracket. The statement is quantified over
the NPV evaluator, so no exception path exists for any NPV behaviour. -/
theorem two_signs_length (flows : List ℚ)
    (hp : ∃ cf ∈ flows, 0 < cf) (hn : ∃ cf ∈ flows, cf < 0) : 2 ≤ flows.length := by
  obtain ⟨cp, hcpmem, hcp⟩ := hp
  obtain ⟨cn, hcnmem, hcn⟩ := hn
  match flows with
  | [] => simp at hcpmem
  | [x] =>
    rw [List.mem_singleton] at hcpmem hcnmem
    subst hcpmem; subst hcnmem
    linarith
  | a :: b :: t => simp

theorem compute_irr_none_iff (npv : List ℚ → ℚ → ℚ) (flows : List ℚ) :
    (compute_irr npv flows = none
      ↔ ¬ ((∃ cf ∈ flows, 0 < cf) ∧ (∃ cf ∈ flows, cf < 0))) ∧
    ((∃ cf ∈ flows, 0 < cf) → (∃ cf ∈ flows, cf < 0) →
      ∃ r, compute_irr npv flows = some r ∧ -(1/2) ≤ r ∧ r ≤ 10) := by
  by_cases hlen : flows.length < 2
  · have hres : compute_irr npv flows = none := by
      unfold compute_irr
      rw [if_pos hlen]
    have hnosig : ¬ ((∃ cf ∈ flows, 0 < cf) ∧ (∃ cf ∈ flows, cf < 0)) := by
      rintro ⟨hp, hn⟩
      exact absurd (two_signs_length flows hp hn) (by omega)
    exact ⟨iff_of_true hres hnosig,
      fun hp hn => absurd ⟨hp, hn⟩ hnosig⟩
  · by_cases hsig : (∃ cf ∈ flows, 0 < cf) ∧ (∃ cf ∈ flows, cf < 0)
    · have hb : (flows.any (fun cf => decide (0 < cf))
          && flows.any (fun cf => decide (cf < 0))) = true := by
        simp only [List.any_eq_true, decide_eq_true_eq, Bool.and_eq_true]
        exact hsig
      have hres : compute_irr npv flows
          = some (irrBisect npv flows (1 / 100000000) 200 (-(1/2)) 10) := by
        unfold compute_irr
        rw [if_neg hlen, if_pos hb]
      constructor
      · rw [hres]
        exact iff_of_false (by simp) (not_not.mpr hsig)
      · intro _ _
        have hm := irrBisect_mem npv flows (1 / 100000000) 200 (-(1/2)) 10 (by norm_num)
        exact ⟨_, hres, hm.1, hm.2⟩
    · have hb : ¬ ((flows.any (fun cf => decide (0 < cf))
          && flows.any (fun cf => decide (cf < 0))) = true) := by
        simpa only [List.any_eq_true, decide_eq_true_eq, Bool.and_eq_true] using hsig
      have hres : compute_irr npv flows = none := by
        unfold compute_irr
        rw [if_neg hlen, if_neg hb]
      exact ⟨iff_of_true hres hsig, fun hp hn => absurd ⟨hp, hn⟩ hsig⟩

/-- C8 witness: `compute_irr` on the flows `[−1, 2]` (one sign change) with
a constant-zero NPV evaluator returns a numeric rate. -/
theorem compute_irr_none_iff_witness :
    (∃ cf ∈ [(-1 : ℚ), 2], 0 < cf) ∧ (∃ cf ∈ [(-1 : ℚ), 2], cf < 0) ∧
    (compute_irr (fun _ _ => 0) [(-1 : ℚ), 2]).isSome = true := by
  have hp : ∃ cf ∈ [(-1 : ℚ), 2], 0 < cf := ⟨2, by norm_num⟩
  have hn : ∃ cf ∈ [(-1 : ℚ), 2], cf < 0 := ⟨-1, by norm_num⟩
  obtain ⟨r, hr, _, _⟩ := (compute_irr_none_iff (fun _ _ => 0) [(-1 : ℚ), 2]).2 hp hn
  exact ⟨hp, hn, by rw [hr]; rfl⟩

theorem run_simulation_months_visits (A : ScnArgs) :
    (run_simulation A).months.map (fun s => s.swap_visits)
      = (List.range A.simulation.horizon_months).map (fun i => staticSwapVisits A (i + 1)) := by
  simp only [run_simulation, List.map_map]
  rfl

theorem run_simulation_months_revenue (A : ScnArgs) :
    (run_simulation A).months.map (fun s => s.revenue)
      = (List.range A.simulation.horizon_months).map
          (fun i => pyRound 2 (staticRevenue A (i + 1))) := by
  simp only [run_simulation, List.map_map]
  rfl

theorem run_simulation_months_capex (A : ScnArgs) :
    (run_simulation A).months.map (fun s => s.capex_this_month)
      = (List.range A.simulation.horizon_months).map
          (fun i => pyRound 2 (staticMonthCapex A (i + 1))) := by
  simp only [run_simulation, List.map_map]
  rfl

theorem run_simulation_capex_trace (A : ScnArgs) :
    (run_simulation A).capex_trace
      = (List.range A.simulation.horizon_months).map (fun i => staticMonthCapex A (i + 1)) :=
  rfl

theorem run_simulation_summary_capex (A : ScnArgs) :
    (run_simulation A).summary.total_capex
      = pyRound 2 (totalInitialCapex A
          + ((List.range A.simulation.horizon_months).map (fun i =>
              if 1 < i + 1 then staticMonthCapex A (i + 1) else 0)).sum) :=
  rfl

/-- C9 counterexample: in the static engine, doubling
`revenue.initial_fleet_size` does **not** exactly double `swap_visits` and
`revenue` in every snapshot. With svpd = 0.01 and one vehicle, month 1 has
`round(0.3) = 0` visits; with two vehicles it has `round(0.6) = 1 ≠ 2·0`,
and revenue 80 ≠ 2·0. -/
theorem fleet_doubling_cex :
    (tinyArgs 2 1).revenue.initial_fleet_size
      = 2 * (tinyArgs 1 1).revenue.initial_fleet_size
  ∧ ((run_simulation (tinyArgs 1 1)).months.map (fun s => s.swap_visits)) = [0]
  ∧ ((run_simulation (tinyArgs 2 1)).months.map (fun s => s.swap_visits)) = [1]
  ∧ ((run_simulation (tinyArgs 1 1)).months.map (fun s => s.revenue)) = [0]
  ∧ ((run_simulation (tinyArgs 2 1)).months.map (fun s => s.revenue)) = [80]
  ∧ (1 : ℤ) ≠ 2 * 0 ∧ (80 : ℚ) ≠ 2 * 0 := by
  refine ⟨rfl, ?_, ?_, ?_, ?_, by norm_num, by norm_num⟩
  · rw [run_simulation_months_visits]
    norm_num [staticSwapVisits, fleetSize, derivedOf, compute_derived_params,
      tinyArgs, pyRound, roundHalfEven, ratFloor, List.range_succ]
  · rw [run_simulation_months_visits]
    norm_num [staticSwapVisits, fleetSize, derivedOf, compute_derived_params,
      tinyArgs, pyRound, roundHalfEven, ratFloor, List.range_succ]
  · rw [run_simulation_months_revenue]
    norm_num [staticRevenue, staticSwapVisits, fleetSize, derivedOf,
      compute_derived_params, tinyArgs, pyRound, roundHalfEven, ratFloor,
      List.range_succ]
  · rw [run_simulation_months_revenue]
    norm_num [staticRevenue, staticSwapVisits, fleetSize, derivedOf,
      compute_derived_params, tinyArgs, pyRound, roundHalfEven, ratFloor,
      List.range_succ]

/-- C9 (amended): in the static engine with `monthly_fleet_additions = 0`,
doubling `revenue.initial_fleet_size` exactly doubles the pre-rounding
monthly visit quantity `svpd × fleet × 30`; whenever that quantity is an
integer — so the `round` in `swap_visits = int(round(visits_per_day × 30))`
is exact — the snapshot fields `swap_visits` and `revenue` double exactly.
(The unrounded doubling always holds; the rounded outputs can differ by
one, as the counterexample shows.) -/
theorem fleet_doubling_amended (A : ScnArgs)
    (hadd : A.revenue.monthly_fleet_additions = 0) (m : ℕ) (k : ℤ)
    (hk : (derivedOf A).swap_visits_per_vehicle_per_day * (fleetSize A m : ℚ) * 30
      = (k : ℚ)) :
    (derivedOf (doubleFleet A)).swap_visits_per_vehicle_per_day
        * (fleetSize (doubleFleet A) m : ℚ) * 30
      = 2 * ((derivedOf A).swap_visits_per_vehicle_per_day * (fleetSize A m : ℚ) * 30)
    ∧ staticSwapVisits (doubleFleet A) m = 2 * staticSwapVisits A m
    ∧ staticRevenue (doubleFleet A) m = 2 * staticRevenue A m := by
  have hsvpd : (derivedOf (doubleFleet A)).swap_visits_per_vehicle_per_day
      = (derivedOf A).swap_visits_per_vehicle_per_day := rfl
  have hfleet : fleetSize (doubleFleet A) m = 2 * fleetSize A m := by
    unfold fleetSize doubleFleet
    simp [hadd]
  have hdouble : (derivedOf (doubleFleet A)).swap_visits_per_vehicle_per_day
      * (fleetSize (doubleFleet A) m : ℚ) * 30
      = 2 * ((derivedOf A).swap_visits_per_vehicle_per_day * (fleetSize A m : ℚ) * 30) := by
    rw [hsvpd, hfleet]
    push_cast
    ring
  have hv1 : staticSwapVisits A m = k := by
    unfold staticSwapVisits
    rw [hk, roundHalfEven_intCast]
  have hv2 : staticSwapVisits (doubleFleet A) m = 2 * k := by
    unfold staticSwapVisits
    rw [hdouble, hk, show (2 : ℚ) * (k : ℚ) = ((2 * k : ℤ) : ℚ) by push_cast; ring,
      roundHalfEven_intCast]
  refine ⟨hdouble, by rw [hv1, hv2], ?_⟩
  unfold staticRevenue
  rw [hv1, hv2]
  have hpr : (doubleFleet A).revenue.price_per_swap = A.revenue.price_per_swap := rfl
  rw [hpr]
  push_cast
  ring

/-- C9 witness: the amended doubling theorem at the integer-visits
scenario (svpd = 0.1, fleet 1 → raw monthly visits 3): visits and revenue
double exactly. -/
theorem fleet_doubling_amended_witness :
    (tinyArgsInt 1 2).revenue.monthly_fleet_additions = 0
  ∧ (derivedOf (tinyArgsInt 1 2)).swap_visits_per_vehicle_per_day
      * (fleetSize (tinyArgsInt 1 2) 1 : ℚ) * 30 = ((3 : ℤ) : ℚ)
  ∧ staticSwapVisits (doubleFleet (tinyArgsInt 1 2)) 1
      = 2 * staticSwapVisits (tinyArgsInt 1 2) 1
  ∧ staticRevenue (doubleFleet (tinyArgsInt 1 2)) 1
      = 2 * staticRevenue (tinyArgsInt 1 2) 1 := by
  have hk : (derivedOf (tinyArgsInt 1 2)).swap_visits_per_vehicle_per_day
      * (fleetSize (tinyArgsInt 1 2) 1 : ℚ) * 30 = ((3 : ℤ) : ℚ) := by
    norm_num [derivedOf, compute_derived_params, tinyArgsInt, tinyArgs, fleetSize,
      pyRound, roundHalfEven, ratFloor]
  have h := fleet_doubling_amended (tinyArgsInt 1 2) rfl 1 3 hk
  exact ⟨rfl, hk, h.2.1, h.2.2⟩

/-- C3: determinism of the stochastic engine. In the embedding the whole
run — monthly snapshots included — is a pure function of (scenario,
charger, oracle, seed): two runs with identical inputs and equal seeds are
identical, and so are two Monte-Carlo evaluations (same P10/P50/P90
summary and the same representative run, which are fields of the result).
This holds for every RNG model and every pair of samplers. -/
theorem stochastic_determinism :
    ∀ (R C : Type) (orc : StochOracle R C) (A : ScnArgs) (seed₁ seed₂ : ℕ),
      seed₁ = seed₂ →
      runSingleStochastic A orc seed₁ = runSingleStochastic A orc seed₂
      ∧ ∀ n : ℕ, runMonteCarlo A orc seed₁ n = runMonteCarlo A orc seed₂ n := by
  intro R C orc A seed₁ seed₂ h
  subst h
  exact ⟨rfl, fun _ => rfl⟩

/-- C3 witness: the determinism theorem at a closed input (unit oracle,
tiny scenario, seed 42). -/
theorem stochastic_determinism_witness :
    (42 = 42)
    ∧ runSingleStochastic (tinyArgs 1 1) unitOracle 42
        = runSingleStochastic (tinyArgs 1 1) unitOracle 42 :=
  ⟨rfl, (stochastic_determinism Unit Unit unitOracle (tinyArgs 1 1) 42 42 rfl).1⟩

theorem stochMonth_proj {R C : Type} (A : ScnArgs) (cpc : CostPerCycleWaterfall)
    (orc : StochOracle R C) (st : StochState R C) (m : ℕ) :
    ∃ c : ℚ,
      (stochMonth A cpc orc st m).capex_trace = st.capex_trace ++ [c]
      ∧ (stochMonth A cpc orc st m).total_capex_sum
          = (if 1 < m then st.total_capex_sum + c else st.total_capex_sum)
      ∧ (stochMonth A cpc orc st m).months.map (fun s => s.capex_this_month)
          = st.months.map (fun s => s.capex_this_month) ++ [pyRound 2 c] := by
  refine ⟨_, rfl, rfl, ?_⟩
  simp only [stochMonth, List.map_append, List.map_cons, List.map_nil]

theorem stochCapex_invariant {R C : Type} (A : ScnArgs) (cpc : CostPerCycleWaterfall)
    (orc : StochOracle R C) (seed : ℕ) : ∀ H : ℕ,
    ((List.range H).foldl (fun st i => stochMonth A cpc orc st (i + 1))
        (stochInit A orc seed)).capex_trace.length = H
    ∧ ((List.range H).foldl (fun st i => stochMonth A cpc orc st (i + 1))
        (stochInit A orc seed)).total_capex_sum
      = totalInitialCapex A
        + (((List.range H).foldl (fun st i => stochMonth A cpc orc st (i + 1))
            (stochInit A orc seed)).capex_trace.drop 1).sum
    ∧ ((List.range H).foldl (fun st i => stochMonth A cpc orc st (i + 1))
        (stochInit A orc seed)).months.map (fun s => s.capex_this_month)
      = ((List.range H).foldl (fun st i => stochMonth A cpc orc st (i + 1))
          (stochInit A orc seed)).capex_trace.map (pyRound 2) := by
  intro H
  induction H with
  | zero => refine ⟨rfl, by simp [stochInit], rfl⟩
  | succ n ih =>
    obtain ⟨ihlen, ihsum, ihmap⟩ := ih
    rw [List.range_succ, List.foldl_append, List.foldl_cons, List.foldl_nil]
    obtain ⟨c, hct, hts, hm⟩ := stochMonth_proj A cpc orc
      ((List.range n).foldl (fun st i => stochMonth A cpc orc st (i + 1))
        (stochInit A orc seed)) (n + 1)
    refine ⟨?_, ?_, ?_⟩
    · rw [hct, List.length_append, ihlen]
      rfl
    · rw [hts, hct]
      by_cases hn : 1 < n + 1
      · have hlen1 : 1 ≤ ((List.range n).foldl (fun st i => stochMonth A cpc orc st (i + 1))
            (stochInit A orc seed)).capex_trace.length := by omega
        rw [if_pos hn, List.drop_append_of_le_length hlen1, List.sum_append, ihsum]
        simp only [List.sum_cons, List.sum_nil]
        ring
      · have hn0 : n = 0 := by omega
        subst hn0
        have htr : ((List.range 0).foldl (fun st i => stochMonth A cpc orc st (i + 1))
            (stochInit A orc seed)).capex_trace = [] := by
          simpa using ihlen
        rw [if_neg hn, ihsum, htr]
        simp
    · rw [hm, hct, ihmap, List.map_append]
      rfl

theorem range_map_guard_sum (f : ℕ → ℚ) (H : ℕ) :
    ((List.range H).map (fun i => if 1 < i + 1 then f (i + 1) else 0)).sum
      = (((List.range H).map (fun i => f (i + 1))).drop 1).sum := by
  cases H with
  | zero => rfl
  | succ n =>
    rw [List.range_succ_eq_map]
    simp only [List.map_cons, List.map_map, List.drop_succ_cons, List.drop_zero,
      List.sum_cons]
    have hg : (List.range n).map ((fun i => if 1 < i + 1 then f (i + 1) else 0) ∘ Nat.succ)
        = (List.range n).map ((fun i => f (i + 1)) ∘ Nat.succ) := by
      apply List.map_congr_left
      intro a _
      simp only [Function.comp]
      rw [if_pos (by omega)]
    rw [hg]
    simp

/-- C10 (implicit): in both engines the summary field `total_capex` is the
initial CapEx plus the sum of the per-month CapEx of months `m ≥ 2` only
(`capex_trace` is the per-month CapEx of the loop before snapshot
rounding, and each snapshot field `capex_this_month` is its 2-decimal
rounding); any month-1 CapEx beyond the initial outlay is in the month-1
snapshot but not in
`summary.total_capex`. Hence `summary.total_capex` can be strictly below
the sum of all monthly `capex_this_month` values, as the concrete static
scenario in the last conjunct shows (365 < 365 + 365). -/
theorem summary_capex_excludes_month1_extra :
    (∀ A : ScnArgs,
      (run_simulation A).summary.total_capex
        = pyRound 2 (totalInitialCapex A + (((run_simulation A).capex_trace).drop 1).sum)
      ∧ (run_simulation A).months.map (fun s => s.capex_this_month)
        = (run_simulation A).capex_trace.map (pyRound 2))
    ∧ (∀ (R C : Type) (orc : StochOracle R C) (A : ScnArgs) (seed : ℕ),
      (runSingleStochastic A orc seed).summary.total_capex
        = pyRound 2 (totalInitialCapex A
            + (((runSingleStochastic A orc seed).capex_trace).drop 1).sum)
      ∧ (runSingleStochastic A orc seed).months.map (fun s => s.capex_this_month)
        = (runSingleStochastic A orc seed).capex_trace.map (pyRound 2))
    ∧ (run_simulation (tinyArgs 1 2)).summary.total_capex
        < (((run_simulation (tinyArgs 1 2)).months.map (fun s => s.capex_this_month)).sum) := by
  refine ⟨?_, ?_, ?_⟩
  · intro A
    constructor
    · rw [run_simulation_summary_capex, run_simulation_capex_trace,
        range_map_guard_sum]
    · rw [run_simulation_months_capex, run_simulation_capex_trace, List.map_map]
      rfl
  · intro R C orc A seed
    have h := stochCapex_invariant A
      (compute_cpc_waterfall (derivedOf A) A.pack A.charger A.opex A.chaos A.station
        (compute_charger_tco A.charger (derivedOf A) A.vehicle A.revenue A.simulation
          A.station)
        (compute_pack_tco A.pack (derivedOf A) A.vehicle A.revenue A.simulation A.station
          (derivedOf A).total_packs))
      orc seed A.simulation.horizon_months
    exact ⟨congrArg (pyRound 2) (by exact h.2.1), h.2.2⟩
  · rw [run_simulation_summary_capex, run_simulation_months_capex]
    norm_num [staticMonthCapex, totalInitialCapex, derivedOf, compute_derived_params,
      compute_charger_tco, compute_pack_tco, tinyArgs, pyRound, roundHalfEven,
      ratFloor, List.range_succ]

theorem cohortEvolves_rfl (m : ℕ) (c : Cohort) : CohortEvolves m c c := by
  unfold CohortEvolves
  refine ⟨rfl, rfl, rfl, le_refl _, fun _ => rfl, fun hf => ⟨le_refl _, ?_, fun _ => rfl⟩⟩
  intro ht
  rw [hf] at ht
  exact absurd ht (by simp)

theorem roundHalfEven_nonneg (q : ℚ) (h : 0 ≤ q) : 0 ≤ roundHalfEven q := by
  have hf : (0 : ℤ) ≤ ⌊q⌋ := Int.le_floor.mpr (by exact_mod_cast h)
  unfold roundHalfEven
  rw [ratFloor_eq_floor]
  dsimp only
  split_ifs <;> omega

theorem degradeCohort_evolves (p : TrackerParams) (loss cpp : ℚ) (m : ℕ) (c : Cohort)
    (hloss : 0 ≤ loss) (hcpp : 0 ≤ cpp) :
    CohortEvolves m c (degradeCohort p loss cpp m c) := by
  unfold CohortEvolves degradeCohort
  by_cases hr : c.is_retired
  · rw [if_pos hr]
    exact cohortEvolves_rfl m c
  · rw [if_neg hr]
    have hrc : 0 ≤ roundHalfEven cpp := roundHalfEven_nonneg cpp hcpp
    dsimp only
    split_ifs with hret
    · exact ⟨rfl, rfl, rfl, by simp; omega, fun ht => absurd ht hr,
        fun _ => ⟨by simp; linarith, fun _ => rfl, fun hfalse => by simp at hfalse⟩⟩
    · exact ⟨rfl, rfl, rfl, by simp; omega, fun ht => absurd ht hr,
        fun _ => ⟨by simp; linarith, fun ht => absurd ht hr, fun _ => rfl⟩⟩

theorem degradeCohort_cases (p : TrackerParams) (loss cpp : ℚ) (m : ℕ) (c : Cohort) :
    (degradeCohort p loss cpp m c).born_month = c.born_month
    ∧ (c.is_retired = true → degradeCohort p loss cpp m c = c)
    ∧ (c.is_retired = false →
        ((degradeCohort p loss cpp m c).is_retired = true
            ∧ (degradeCohort p loss cpp m c).retired_month = some m)
        ∨ ((degradeCohort p loss cpp m c).is_retired = false
            ∧ (degradeCohort p loss cpp m c).retired_month = c.retired_month)) := by
  unfold degradeCohort
  by_cases hr : c.is_retired
  · rw [if_pos hr]
    exact ⟨rfl, fun _ => rfl, fun hf => absurd hr (by simp [hf])⟩
  · rw [if_neg hr]
    dsimp only
    split_ifs with hret
    · exact ⟨rfl, fun ht => absurd ht hr, fun _ => Or.inl ⟨rfl, rfl⟩⟩
    · exact ⟨rfl, fun ht => absurd ht hr, fun _ => Or.inr ⟨by simpa using hr, rfl⟩⟩

theorem foldl_addCohort_cohorts (month : ℕ) :
    ∀ (l : List Cohort) (s : TrackerState),
      ∃ tail : List Cohort,
        (l.foldl (fun st c => addCohort st c.pack_count month) s).cohorts
          = s.cohorts ++ tail
        ∧ ∀ c ∈ tail, c.is_retired = false ∧ c.born_month = month
            ∧ c.retired_month = none := by
  intro l
  induction l with
  | nil => intro s; exact ⟨[], by simp, by simp⟩
  | cons x xs ih =>
    intro s
    obtain ⟨tail, h1, h2⟩ := ih (addCohort s x.pack_count month)
    refine ⟨Cohort.mk s.next_id month x.pack_count 1 0 false none :: tail, ?_, ?_⟩
    · rw [List.foldl_cons, h1]
      simp [addCohort]
    · intro c hc
      rcases List.mem_cons.mp hc with hx | hmem
      · subst hx; exact ⟨rfl, rfl, rfl⟩
      · exact h2 c hmem

theorem stepTracker_state_shape (p : TrackerParams) (s : TrackerState) (m : ℕ)
    (cyc : ℕ) :
    (stepTracker p s m cyc).2 = s
    ∨ ∃ (loss cpp : ℚ) (tail : List Cohort),
        0 ≤ cpp
        ∧ loss = p.beta_per_cycle * cpp + p.calendar_per_month
        ∧ ((stepTracker p s m cyc).2).cohorts
            = s.cohorts.map (degradeCohort p loss cpp m) ++ tail
        ∧ ∀ c ∈ tail, c.is_retired = false ∧ c.born_month = m
            ∧ c.retired_month = none := by
  unfold stepTracker
  by_cases h0 : activePackCount s = 0
  · rw [if_pos h0]
    exact Or.inl rfl
  · rw [if_neg h0]
    dsimp only
    right
    refine ⟨p.beta_per_cycle * ((cyc : ℚ) / (activePackCount s : ℚ))
      + p.calendar_per_month, (cyc : ℚ) / (activePackCount s : ℚ), ?_⟩
    have hcpp : 0 ≤ (cyc : ℚ) / (activePackCount s : ℚ) := by positivity
    split_ifs with har
    · obtain ⟨tail, h1, h2⟩ := foldl_addCohort_cohorts m
        ((List.filter (fun c => !c.is_retired) s.cohorts).filter
          (fun c => (degradeCohort p
            (p.beta_per_cycle * ((cyc : ℚ) / (activePackCount s : ℚ))
              + p.calendar_per_month)
            ((cyc : ℚ) / (activePackCount s : ℚ)) m c).is_retired))
        { cohorts := s.cohorts.map (degradeCohort p
            (p.beta_per_cycle * ((cyc : ℚ) / (activePackCount s : ℚ))
              + p.calendar_per_month)
            ((cyc : ℚ) / (activePackCount s : ℚ)) m),
          next_id := s.next_id }
      exact ⟨tail, hcpp, rfl, h1, h2⟩
    · exact ⟨[], hcpp, rfl, by simp, by simp⟩

theorem stepTracker_pointwise (p : TrackerParams) (hb : 0 ≤ p.beta_per_cycle)
    (hc : 0 ≤ p.calendar_per_month) (s : TrackerState) (m : ℕ) (cyc : ℕ) :
    s.cohorts.length ≤ ((stepTracker p s m cyc).2).cohorts.length
    ∧ ∀ i (h1 : i < s.cohorts.length)
        (h2 : i < ((stepTracker p s m cyc).2).cohorts.length),
        CohortEvolves m (s.cohorts.get ⟨i, h1⟩)
          (((stepTracker p s m cyc).2).cohorts.get ⟨i, h2⟩) := by
  rcases stepTracker_state_shape p s m cyc with heq |
    ⟨loss, cpp, tail, hcpp, hlossdef, hcoh, _⟩
  · rw [heq]
    exact ⟨le_refl _, fun i h1 h2 => cohortEvolves_rfl m _⟩
  · have hloss : 0 ≤ loss := by
      rw [hlossdef]
      have : 0 ≤ p.beta_per_cycle * cpp := mul_nonneg hb hcpp
      linarith
    constructor
    · rw [hcoh, List.length_append, List.length_map]
      omega
    · intro i h1 h2
      have hmap : i < (s.cohorts.map (degradeCohort p loss cpp m)).length := by
        rw [List.length_map]; exact h1
      have hget : ((stepTracker p s m cyc).2).cohorts.get ⟨i, h2⟩
          = degradeCohort p loss cpp m (s.cohorts.get ⟨i, h1⟩) := by
        simp only [List.get_eq_getElem]
        rw [List.getElem_of_eq hcoh, List.getElem_append_left hmap,
          List.getElem_map]
      rw [hget]
      exact degradeCohort_evolves p loss cpp m _ hloss hcpp

theorem stepTracker_mem (p : TrackerParams) (s : TrackerState) (m : ℕ) (cyc : ℕ) :
    ∀ c' ∈ ((stepTracker p s m cyc).2).cohorts,
      c' ∈ s.cohorts
      ∨ (∃ c ∈ s.cohorts, ∃ loss cpp, c' = degradeCohort p loss cpp m c)
      ∨ (c'.is_retired = false ∧ c'.born_month = m ∧ c'.retired_month = none) := by
  rcases stepTracker_state_shape p s m cyc with heq |
    ⟨loss, cpp, tail, _, _, hcoh, htail⟩
  · rw [heq]
    exact fun c' hmem => Or.inl hmem
  · intro c' hmem
    rw [hcoh] at hmem
    rcases List.mem_append.mp hmem with hmap | htl
    · obtain ⟨c, hcmem, hceq⟩ := List.mem_map.mp hmap
      exact Or.inr (Or.inl ⟨c, hcmem, loss, cpp, hceq.symm⟩)
    · exact Or.inr (Or.inr (htail c' htl))

theorem orchMonth_pointwise (p : TrackerParams) (hb : 0 ≤ p.beta_per_cycle)
    (hc : 0 ≤ p.calendar_per_month) (cycles : ℕ → ℕ) (adds : ℕ → Option ℕ)
    (s : TrackerState) (m : ℕ) :
    s.cohorts.length ≤ (orchMonthTracker p cycles adds s m).cohorts.length
    ∧ ∀ i (h1 : i < s.cohorts.length)
        (h2 : i < (orchMonthTracker p cycles adds s m).cohorts.length),
        CohortEvolves m (s.cohorts.get ⟨i, h1⟩)
          ((orchMonthTracker p cycles adds s m).cohorts.get ⟨i, h2⟩) := by
  obtain ⟨hlen, hpt⟩ := stepTracker_pointwise p hb hc s m (cycles m)
  unfold orchMonthTracker
  cases hadd : adds m with
  | none => exact ⟨hlen, hpt⟩
  | some k =>
    dsimp only
    constructor
    · rw [addCohort, List.length_append]
      simp only [List.length_cons, List.length_nil]
      omega
    · intro i h1 h2
      have hstep : i < ((stepTracker p s m (cycles m)).2).cohorts.length := by
        omega
      have hget : (addCohort ((stepTracker p s m (cycles m)).2) k m).cohorts.get ⟨i, h2⟩
          = ((stepTracker p s m (cycles m)).2).cohorts.get ⟨i, hstep⟩ := by
        simp only [List.get_eq_getElem, addCohort]
        exact List.getElem_append_left hstep
      rw [hget]
      exact hpt i h1 hstep

theorem orchMonth_mem (p : TrackerParams) (cycles : ℕ → ℕ) (adds : ℕ → Option ℕ)
    (s : TrackerState) (m : ℕ) :
    ∀ c' ∈ (orchMonthTracker p cycles adds s m).cohorts,
      c' ∈ s.cohorts
      ∨ (∃ c ∈ s.cohorts, ∃ loss cpp, c' = degradeCohort p loss cpp m c)
      ∨ (c'.is_retired = false ∧ c'.born_month = m ∧ c'.retired_month = none) := by
  unfold orchMonthTracker
  cases hadd : adds m with
  | none => exact stepTracker_mem p s m (cycles m)
  | some k =>
    dsimp only
    intro c' hmem
    simp only [addCohort, List.mem_append, List.mem_singleton] at hmem
    rcases hmem with hstep | hnew
    · exact stepTracker_mem p s m (cycles m) c' hstep
    · subst hnew
      exact Or.inr (Or.inr ⟨rfl, rfl, rfl⟩)

theorem orch_retire_consistent (p : TrackerParams) (cycles : ℕ → ℕ)
    (adds : ℕ → Option ℕ) (n0 : ℕ) :
    ∀ m, ∀ c ∈ (orchTrackerStates p cycles adds n0 m).cohorts,
      (c.is_retired = true → ∃ r, c.retired_month = some r ∧ c.born_month ≤ r ∧ r ≤ m)
      ∧ (c.is_retired = false → c.born_month ≤ m + 1 ∧ c.retired_month = none) := by
  intro m
  induction m with
  | zero =>
    intro c hmem
    simp only [orchTrackerStates, addCohort, List.nil_append,
      List.mem_singleton] at hmem
    subst hmem
    exact ⟨fun ht => by simp at ht, fun _ => ⟨le_refl _, rfl⟩⟩
  | succ n ih =>
    intro c hmem
    have hm : (orchTrackerStates p cycles adds n0 (n + 1))
        = orchMonthTracker p cycles adds (orchTrackerStates p cycles adds n0 n) (n + 1) :=
      rfl
    rw [hm] at hmem
    rcases orchMonth_mem p cycles adds _ (n + 1) c hmem with hold |
      ⟨c0, hc0mem, loss, cpp, hdeg⟩ | ⟨hf, hbm, hrm⟩
    · obtain ⟨hr, hnr⟩ := ih c hold
      refine ⟨fun ht => ?_, fun hf => ?_⟩
      · obtain ⟨r, h1, h2, h3⟩ := hr ht
        exact ⟨r, h1, h2, by omega⟩
      · obtain ⟨h1, h2⟩ := hnr hf
        exact ⟨by omega, h2⟩
    · obtain ⟨hborn, hret, hnret⟩ := degradeCohort_cases p loss cpp (n + 1) c0
      obtain ⟨hr0, hnr0⟩ := ih c0 hc0mem
      by_cases hc0r : c0.is_retired
      · rw [hret hc0r] at hdeg
        subst hdeg
        obtain ⟨r, h1, h2, h3⟩ := hr0 hc0r
        exact ⟨fun _ => ⟨r, h1, h2, by omega⟩, fun hf => absurd hc0r (by simp [hf])⟩
      · have hc0f : c0.is_retired = false := by simpa using hc0r
        obtain ⟨hb0, hrm0⟩ := hnr0 hc0f
        subst hdeg
        rcases hnret hc0f with ⟨hrt, hrm⟩ | ⟨hrf, hrm⟩
        · refine ⟨fun _ => ⟨n + 1, hrm, ?_, le_refl _⟩, fun hf => ?_⟩
          · rw [hborn]; omega
          · rw [hrt] at hf; simp at hf
        · refine ⟨fun ht => ?_, fun _ => ?_⟩
          · rw [hrf] at ht; simp at ht
          · rw [hborn, hrm, hrm0]
            exact ⟨by omega, rfl⟩
    · exact ⟨fun ht => by rw [hf] at ht; simp at ht,
        fun _ => ⟨by omega, hrm⟩⟩

theorem stochDeg_follows_orch {R C : Type} (A : ScnArgs) (cpc : CostPerCycleWaterfall)
    (orc : StochOracle R C) (seed : ℕ) :
    ∃ cycles : ℕ → ℕ, ∃ adds : ℕ → Option ℕ, ∀ m : ℕ,
      (stochStateAt A cpc orc seed m).deg
        = orchTrackerStates (trackerParamsOf A.pack A.chaos true) cycles adds
            (derivedOf A).total_packs m := by
  refine ⟨fun m => (orc.demandSample (stochStateAt A cpc orc seed (m - 1)).rng
      (fleetSize A m) m).1 * A.vehicle.packs_per_vehicle,
    fun m => if 1 < m ∧ 0 < A.revenue.monthly_fleet_additions then
      some (A.vehicle.packs_per_vehicle * A.revenue.monthly_fleet_additions)
    else none, ?_⟩
  intro m
  induction m with
  | zero => rfl
  | succ n ih =>
    have hstep : stochStateAt A cpc orc seed (n + 1)
        = stochMonth A cpc orc (stochStateAt A cpc orc seed n) (n + 1) := by
      unfold stochStateAt
      rw [List.range_succ, List.foldl_append, List.foldl_cons, List.foldl_nil]
    rw [hstep]
    show (if 1 < n + 1 ∧ 0 < A.revenue.monthly_fleet_additions then
        addCohort ((stepTracker (trackerParamsOf A.pack A.chaos true)
          (stochStateAt A cpc orc seed n).deg (n + 1)
          ((orc.demandSample (stochStateAt A cpc orc seed n).rng
            (fleetSize A (n + 1)) (n + 1)).1 * A.vehicle.packs_per_vehicle)).2)
          (A.vehicle.packs_per_vehicle * A.revenue.monthly_fleet_additions) (n + 1)
      else ((stepTracker (trackerParamsOf A.pack A.chaos true)
          (stochStateAt A cpc orc seed n).deg (n + 1)
          ((orc.demandSample (stochStateAt A cpc orc seed n).rng
            (fleetSize A (n + 1)) (n + 1)).1 * A.vehicle.packs_per_vehicle)).2)) = _
    rw [ih]
    by_cases hg : 1 < n + 1 ∧ 0 < A.revenue.monthly_fleet_additions
    · simp only [orchMonthTracker, orchTrackerStates, if_pos hg, ih]
      rfl
    · simp only [orchMonthTracker, orchTrackerStates, if_neg hg, ih]
      rfl

/-- C5: cohort lifecycle invariants under the tracker
usage (any monthly demand totals, any growth additions, non-negative
degradation constants): month to month, every cohort keeps its identity
fields, its `cumulative_cycles` never decreases and its `current_soh`
never increases while it is active; a retired cohort is frozen forever
(never un-retired or reused) and the only transition records the current
month; and for every retired cohort the `retired_month` lies between its
`born_month` and the current month. The last conjunct ties the pattern to
the engine: the tracker states of every stochastic run follow
`orchTrackerStates` for some demand and growth sequences. -/
theorem cohort_lifecycle_invariants (p : TrackerParams)
    (hb : 0 ≤ p.beta_per_cycle) (hc : 0 ≤ p.calendar_per_month)
    (cycles : ℕ → ℕ) (adds : ℕ → Option ℕ) (n0 : ℕ) :
    (∀ m i (h1 : i < (orchTrackerStates p cycles adds n0 m).cohorts.length)
        (h2 : i < (orchTrackerStates p cycles adds n0 (m + 1)).cohorts.length),
        CohortEvolves (m + 1)
          ((orchTrackerStates p cycles adds n0 m).cohorts.get ⟨i, h1⟩)
          ((orchTrackerStates p cycles adds n0 (m + 1)).cohorts.get ⟨i, h2⟩))
    ∧ (∀ m, ∀ c ∈ (orchTrackerStates p cycles adds n0 m).cohorts,
        c.is_retired = true →
          ∃ r, c.retired_month = some r ∧ c.born_month ≤ r ∧ r ≤ m)
    ∧ (∀ (R C : Type) (A : ScnArgs) (cpc : CostPerCycleWaterfall)
        (orc : StochOracle R C) (seed : ℕ),
        ∃ (dem : ℕ → ℕ) (gro : ℕ → Option ℕ), ∀ m : ℕ,
          (stochStateAt A cpc orc seed m).deg
            = orchTrackerStates (trackerParamsOf A.pack A.chaos true) dem gro
                (derivedOf A).total_packs m) := by
  refine ⟨?_, ?_, ?_⟩
  · intro m i h1 h2
    exact (orchMonth_pointwise p hb hc cycles adds
      (orchTrackerStates p cycles adds n0 m) (m + 1)).2 i h1 h2
  · intro m c hmem hret
    exact ((orch_retire_consistent p cycles adds n0 m c hmem).1) hret
  · intro R C A cpc orc seed
    exact stochDeg_follows_orch A cpc orc seed

/-- C5 witness: the lifecycle theorem at the concrete S4 tracker constants
(β = 0.001 ≥ 0, calendar 0 ≥ 0), constant demand of 10 000 cycles, no
growth, 100 initial packs, evaluated at month 0, cohort index 0. -/
theorem cohort_lifecycle_invariants_witness :
    (0 : ℚ) ≤ s4params.beta_per_cycle ∧ (0 : ℚ) ≤ s4params.calendar_per_month ∧
    ∀ i (h1 : i < (orchTrackerStates s4params (fun _ => 10000) (fun _ => none) 100
          0).cohorts.length)
      (h2 : i < (orchTrackerStates s4params (fun _ => 10000) (fun _ => none) 100
          1).cohorts.length),
      CohortEvolves 1
        ((orchTrackerStates s4params (fun _ => 10000) (fun _ => none) 100
          0).cohorts.get ⟨i, h1⟩)
        ((orchTrackerStates s4params (fun _ => 10000) (fun _ => none) 100
          1).cohorts.get ⟨i, h2⟩) := by
  have hb : (0 : ℚ) ≤ s4params.beta_per_cycle := by norm_num [s4params]
  have hc : (0 : ℚ) ≤ s4params.calendar_per_month := by norm_num [s4params]
  exact ⟨hb, hc, fun i h1 h2 =>
    (cohort_lifecycle_invariants s4params hb hc (fun _ => 10000) (fun _ => none)
      100).1 0 i h1 h2⟩

end ZngSim
